import Mathlib

/-!
Shallow embedding of `src/03_db/extract_verse_mentions.py`: book-alias
registration, chapter-bounds checking, the two compiled reference patterns,
the two-pass `extract_mentions` scan, and the schema handling of
`ensure_schema` (with the SQLite statement semantics it relies on modelled
explicitly). Text is represented as `List Char`; Python `dict` insertion
order and regex backtracking order are reproduced exactly where the source
depends on them. The alias table and the token alternation are threaded as
explicit parameters (`..._in` versions) and instantiated with the globally
constructed `BOOK_ALIASES` and `_BOOK_TOKENS` under the source's names;
`aliasTableLit` and `bookTokensLit` restate the two constructed tables as
literals, proved equal to them once, so that concrete runs evaluate
cheaply.
-/

set_option maxRecDepth 8192
set_option maxHeartbeats 4000000

namespace EVM

/-- Strings-as-character-lists, the representation used for all scanned text. -/
abbrev Str := List Char

/-- Model of the regex class `\s` (and of the whitespace stripped by
`str.strip`): ASCII space, tab, newline, carriage return, vertical tab,
form feed. The source only ever meets these. -/
def isSpaceChar (c : Char) : Bool :=
  c = ' ' || c = '\t' || c = '\n' || c = '\r' || c = Char.ofNat 11 || c = Char.ofNat 12

/-- Model of the regex class `\d` restricted to ASCII digits, which is what
all inputs of interest contain. -/
def isDigitChar (c : Char) : Bool :=
  '0' ≤ c && c ≤ '9'

/-- The range separators of the source's `DASH` alternation:
hyphen, en dash, em dash, tilde (the en/em dash appear twice in the
source alternation, denoting the same two characters). -/
def isDashChar (c : Char) : Bool :=
  c = '-' || c = '–' || c = '—' || c = '~'

/-- Numeric value of an ASCII digit string, as `int()` computes it. -/
def digitsToNat (s : Str) : Nat :=
  s.foldl (fun a c => 10 * a + (c.toNat - '0'.toNat)) 0

/-- The `_add(osis, *aliases)` registration calls of the source, flattened in
call order into `(alias, osis)` pairs. -/
def registrations : List (String × String) := [
  ("gen", "Gen"), ("genesis", "Gen"), ("创", "Gen"), ("創", "Gen"), ("创世记", "Gen"), ("創世記", "Gen"),
  ("创世記", "Gen"), ("ex", "Exod"), ("exo", "Exod"), ("exod", "Exod"), ("exodus", "Exod"),
  ("出", "Exod"), ("出埃及记", "Exod"), ("出埃及記", "Exod"), ("lev", "Lev"), ("leviticus", "Lev"),
  ("利", "Lev"), ("利未记", "Lev"), ("利未記", "Lev"), ("num", "Num"), ("numbers", "Num"),
  ("民", "Num"), ("民数记", "Num"), ("民數記", "Num"), ("deut", "Deut"), ("deuteronomy", "Deut"),
  ("申", "Deut"), ("申命记", "Deut"), ("申命記", "Deut"), ("josh", "Josh"), ("joshua", "Josh"),
  ("书", "Josh"), ("書", "Josh"), ("约书亚记", "Josh"), ("約書亞記", "Josh"), ("约书亚記", "Josh"),
  ("約書亞記", "Josh"), ("judg", "Judg"), ("judges", "Judg"), ("士", "Judg"), ("士师记", "Judg"),
  ("士師記", "Judg"), ("ruth", "Ruth"), ("得", "Ruth"), ("路得记", "Ruth"), ("路得記", "Ruth"),
  ("1 sam", "1Sam"), ("1sam", "1Sam"), ("i sam", "1Sam"), ("1samuel", "1Sam"), ("1 samuel", "1Sam"),
  ("撒上", "1Sam"), ("撒母耳记上", "1Sam"), ("撒母耳記上", "1Sam"), ("2 sam", "2Sam"), ("2sam", "2Sam"),
  ("ii sam", "2Sam"), ("2samuel", "2Sam"), ("2 samuel", "2Sam"), ("撒下", "2Sam"),
  ("撒母耳记下", "2Sam"), ("撒母耳記下", "2Sam"), ("1 kgs", "1Kgs"), ("1kgs", "1Kgs"), ("1 kings", "1Kgs"),
  ("i kgs", "1Kgs"), ("王上", "1Kgs"), ("列王纪上", "1Kgs"), ("列王紀上", "1Kgs"), ("2 kgs", "2Kgs"),
  ("2kgs", "2Kgs"), ("2 kings", "2Kgs"), ("ii kgs", "2Kgs"), ("王下", "2Kgs"), ("列王纪下", "2Kgs"),
  ("列王紀下", "2Kgs"), ("1 chr", "1Chr"), ("1chr", "1Chr"), ("1 chronicles", "1Chr"),
  ("i chr", "1Chr"), ("代上", "1Chr"), ("历代志上", "1Chr"), ("歷代志上", "1Chr"), ("2 chr", "2Chr"),
  ("2chr", "2Chr"), ("2 chronicles", "2Chr"), ("ii chr", "2Chr"), ("代下", "2Chr"),
  ("历代志下", "2Chr"), ("歷代志下", "2Chr"), ("ezra", "Ezra"), ("拉", "Ezra"), ("以斯拉记", "Ezra"),
  ("以斯拉記", "Ezra"), ("neh", "Neh"), ("nehemiah", "Neh"), ("尼", "Neh"), ("尼希米记", "Neh"),
  ("尼希米記", "Neh"), ("esth", "Esth"), ("esther", "Esth"), ("斯", "Esth"), ("以斯帖记", "Esth"),
  ("以斯帖記", "Esth"), ("job", "Job"), ("伯", "Job"), ("约伯记", "Job"), ("約伯記", "Job"), ("ps", "Ps"),
  ("psalm", "Ps"), ("psalms", "Ps"), ("诗", "Ps"), ("詩", "Ps"), ("诗篇", "Ps"), ("詩篇", "Ps"),
  ("prov", "Prov"), ("proverbs", "Prov"), ("箴", "Prov"), ("箴言", "Prov"), ("eccl", "Eccl"),
  ("ecclesiastes", "Eccl"), ("传", "Eccl"), ("傳", "Eccl"), ("传道书", "Eccl"), ("傳道書", "Eccl"),
  ("song", "Song"), ("song of songs", "Song"), ("song of solomon", "Song"), ("雅", "Song"),
  ("雅歌", "Song"), ("isa", "Isa"), ("isaiah", "Isa"), ("赛", "Isa"), ("賽", "Isa"), ("以赛亚书", "Isa"),
  ("以賽亞書", "Isa"), ("jer", "Jer"), ("jeremiah", "Jer"), ("耶", "Jer"), ("耶利米书", "Jer"),
  ("耶利米書", "Jer"), ("lam", "Lam"), ("lamentations", "Lam"), ("哀", "Lam"), ("耶利米哀歌", "Lam"),
  ("耶利米哀歌", "Lam"), ("ezek", "Ezek"), ("ezekiel", "Ezek"), ("结", "Ezek"), ("結", "Ezek"),
  ("以西结书", "Ezek"), ("以西結書", "Ezek"), ("dan", "Dan"), ("daniel", "Dan"), ("但", "Dan"),
  ("但以理书", "Dan"), ("但以理書", "Dan"), ("hos", "Hos"), ("hosea", "Hos"), ("何", "Hos"),
  ("何西阿书", "Hos"), ("何西阿書", "Hos"), ("joel", "Joel"), ("珥", "Joel"), ("约珥书", "Joel"),
  ("約珥書", "Joel"), ("amos", "Amos"), ("摩", "Amos"), ("阿摩司书", "Amos"), ("阿摩司書", "Amos"),
  ("obad", "Obad"), ("obadiah", "Obad"), ("俄", "Obad"), ("俄巴底亚书", "Obad"), ("俄巴底亞書", "Obad"),
  ("jonah", "Jonah"), ("拿", "Jonah"), ("约拿书", "Jonah"), ("約拿書", "Jonah"), ("mic", "Mic"),
  ("micah", "Mic"), ("弥", "Mic"), ("彌", "Mic"), ("弥迦书", "Mic"), ("彌迦書", "Mic"), ("nah", "Nah"),
  ("nahum", "Nah"), ("鸿", "Nah"), ("鴻", "Nah"), ("那鸿书", "Nah"), ("那鴻書", "Nah"), ("hab", "Hab"),
  ("habakkuk", "Hab"), ("哈", "Hab"), ("哈巴谷书", "Hab"), ("哈巴谷書", "Hab"), ("zeph", "Zeph"),
  ("zephaniah", "Zeph"), ("番", "Zeph"), ("西番雅书", "Zeph"), ("西番雅書", "Zeph"), ("hag", "Hag"),
  ("haggai", "Hag"), ("该", "Hag"), ("該", "Hag"), ("哈该书", "Hag"), ("哈該書", "Hag"), ("zech", "Zech"),
  ("zechariah", "Zech"), ("亚", "Zech"), ("亞", "Zech"), ("撒迦利亚书", "Zech"), ("撒迦利亞書", "Zech"),
  ("mal", "Mal"), ("malachi", "Mal"), ("玛", "Mal"), ("瑪", "Mal"), ("玛拉基书", "Mal"),
  ("瑪拉基書", "Mal"), ("matt", "Matt"), ("mt", "Matt"), ("matthew", "Matt"), ("太", "Matt"),
  ("马太福音", "Matt"), ("馬太福音", "Matt"), ("mark", "Mark"), ("mk", "Mark"), ("可", "Mark"),
  ("马可福音", "Mark"), ("馬可福音", "Mark"), ("luke", "Luke"), ("lk", "Luke"), ("路", "Luke"),
  ("路加福音", "Luke"), ("john", "John"), ("jn", "John"), ("约", "John"), ("約", "John"),
  ("约翰福音", "John"), ("約翰福音", "John"), ("acts", "Acts"), ("act", "Acts"), ("徒", "Acts"),
  ("使徒行传", "Acts"), ("使徒行傳", "Acts"), ("rom", "Rom"), ("romans", "Rom"), ("罗", "Rom"),
  ("羅", "Rom"), ("罗马书", "Rom"), ("羅馬書", "Rom"), ("1 cor", "1Cor"), ("1cor", "1Cor"),
  ("i cor", "1Cor"), ("1 corinthians", "1Cor"), ("林前", "1Cor"), ("哥林多前书", "1Cor"),
  ("哥林多前書", "1Cor"), ("2 cor", "2Cor"), ("2cor", "2Cor"), ("ii cor", "2Cor"), ("2 corinthians", "2Cor"),
  ("林后", "2Cor"), ("林後", "2Cor"), ("哥林多后书", "2Cor"), ("哥林多後書", "2Cor"), ("gal", "Gal"),
  ("galatians", "Gal"), ("加", "Gal"), ("加拉太书", "Gal"), ("加拉太書", "Gal"), ("eph", "Eph"),
  ("ephesians", "Eph"), ("弗", "Eph"), ("以弗所书", "Eph"), ("以弗所書", "Eph"), ("phil", "Phil"),
  ("philippians", "Phil"), ("腓", "Phil"), ("腓立比书", "Phil"), ("腓立比書", "Phil"), ("col", "Col"),
  ("colossians", "Col"), ("西", "Col"), ("歌罗西书", "Col"), ("歌羅西書", "Col"), ("1 thess", "1Thess"),
  ("1thess", "1Thess"), ("i thess", "1Thess"), ("帖前", "1Thess"), ("帖撒罗尼迦前书", "1Thess"),
  ("帖撒羅尼迦前書", "1Thess"), ("2 thess", "2Thess"), ("2thess", "2Thess"), ("ii thess", "2Thess"),
  ("帖后", "2Thess"), ("帖後", "2Thess"), ("帖撒罗尼迦后书", "2Thess"), ("帖撒羅尼迦後書", "2Thess"),
  ("1 tim", "1Tim"), ("1tim", "1Tim"), ("i tim", "1Tim"), ("提前", "1Tim"), ("提摩太前书", "1Tim"),
  ("提摩太前書", "1Tim"), ("2 tim", "2Tim"), ("2tim", "2Tim"), ("ii tim", "2Tim"), ("提后", "2Tim"),
  ("提後", "2Tim"), ("提摩太后书", "2Tim"), ("提摩太後書", "2Tim"), ("titus", "Titus"), ("多", "Titus"),
  ("提多书", "Titus"), ("提多書", "Titus"), ("phlm", "Phlm"), ("philemon", "Phlm"), ("门", "Phlm"),
  ("門", "Phlm"), ("腓利门书", "Phlm"), ("腓利門書", "Phlm"), ("heb", "Heb"), ("hebrews", "Heb"),
  ("来", "Heb"), ("來", "Heb"), ("希伯来书", "Heb"), ("希伯來書", "Heb"), ("jas", "Jas"), ("james", "Jas"),
  ("雅各书", "Jas"), ("雅各書", "Jas"), ("1 pet", "1Pet"), ("1pet", "1Pet"), ("i pet", "1Pet"),
  ("彼前", "1Pet"), ("彼得前书", "1Pet"), ("彼得前書", "1Pet"), ("2 pet", "2Pet"), ("2pet", "2Pet"),
  ("ii pet", "2Pet"), ("彼后", "2Pet"), ("彼後", "2Pet"), ("彼得后书", "2Pet"), ("彼得後書", "2Pet"),
  ("1 john", "1John"), ("1john", "1John"), ("i john", "1John"), ("约一", "1John"),
  ("約一", "1John"), ("约壹", "1John"), ("約壹", "1John"), ("约翰一书", "1John"), ("約翰一書", "1John"),
  ("2 john", "2John"), ("2john", "2John"), ("ii john", "2John"), ("约二", "2John"),
  ("約二", "2John"), ("约贰", "2John"), ("約貳", "2John"), ("约翰二书", "2John"), ("約翰二書", "2John"),
  ("3 john", "3John"), ("3john", "3John"), ("iii john", "3John"), ("约三", "3John"),
  ("約三", "3John"), ("约叁", "3John"), ("約參", "3John"), ("约翰三书", "3John"), ("約翰三書", "3John"),
  ("jude", "Jude"), ("犹", "Jude"), ("猶", "Jude"), ("犹大书", "Jude"), ("猶大書", "Jude"),
  ("rev", "Rev"), ("revelation", "Rev"), ("启", "Rev"), ("啟", "Rev"), ("启示录", "Rev"),
  ("啟示錄", "Rev")
]

/-- Effect of one Python `dict` assignment `d[k] = v` on the association
list: an existing key keeps its position and takes the new value, a fresh
key is appended at the end. -/
def dictInsert : List (Str × String) → Str → String → List (Str × String)
  | [], k, v => [(k, v)]
  | p :: ps, k, v => if p.1 = k then (k, v) :: ps else p :: dictInsert ps k v

/-- Running the `_add` registration loop — `BOOK_ALIASES[a.lower()] = osis`
for each pair, with no conflict check of any kind — from a given starting
table. -/
def foldAliases (d : List (Str × String)) (regs : List (String × String)) :
    List (Str × String) :=
  regs.foldl (fun d r => dictInsert d (r.1.toList.map Char.toLower) r.2) d

/-- Construction of the alias table: the full `_add` loop starting from the
empty dict. -/
def buildAliases (regs : List (String × String)) : List (Str × String) :=
  foldAliases [] regs

/-- Table `BOOK_ALIASES` after all `_add` calls, keys in dict insertion order. -/
def BOOK_ALIASES : List (Str × String) :=
  buildAliases registrations

/-- Python `dict.get`: value of the (unique) entry with the given key. -/
def dictGet (d : List (Str × String)) (k : Str) : Option String :=
  (d.find? (fun p => p.1 = k)).map (fun p => p.2)

/-- Leading and trailing `str.strip` whitespace removal. -/
def stripWS (s : Str) : Str :=
  ((s.dropWhile isSpaceChar).reverse.dropWhile isSpaceChar).reverse

/-- Model of `re.sub` of one-or-more whitespace to a single space: every maximal
whitespace run becomes one space. The flag records whether the previous
character was part of a run. -/
def collapseAux : Bool → Str → Str
  | _, [] => []
  | prevSp, c :: cs =>
    if isSpaceChar c then
      if prevSp then collapseAux true cs else ' ' :: collapseAux true cs
    else c :: collapseAux false cs

/-- Whitespace collapsing as applied by `normalize_book`. -/
def collapseWS (s : Str) : Str :=
  collapseAux false s

/-- Function `normalize_book` over an explicit alias table: strip, lower-case,
collapse whitespace, then look the token up. -/
def normalize_book_in (tbl : List (Str × String)) (token : Str) : Option String :=
  dictGet tbl (collapseWS ((stripWS token).map Char.toLower))

/-- Function `normalize_book` of the source: lookup in the global `BOOK_ALIASES`. -/
def normalize_book : Str → Option String :=
  normalize_book_in BOOK_ALIASES

/-- Table `BOOK_MAX_CHAPTERS` of the source, in its literal order. -/
def BOOK_MAX_CHAPTERS : List (String × Nat) := [
  ("Gen", 50), ("Exod", 40), ("Lev", 27), ("Num", 36), ("Deut", 34),
  ("Josh", 24), ("Judg", 21), ("Ruth", 4), ("1Sam", 31), ("2Sam", 24),
  ("1Kgs", 22), ("2Kgs", 25), ("1Chr", 29), ("2Chr", 36), ("Ezra", 10),
  ("Neh", 13), ("Esth", 10), ("Job", 42), ("Ps", 150), ("Prov", 31),
  ("Eccl", 12), ("Song", 8), ("Isa", 66), ("Jer", 52), ("Lam", 5),
  ("Ezek", 48), ("Dan", 12), ("Hos", 14), ("Joel", 3), ("Amos", 9),
  ("Obad", 1), ("Jonah", 4), ("Mic", 7), ("Nah", 3), ("Hab", 3),
  ("Zeph", 3), ("Hag", 2), ("Zech", 14), ("Mal", 4), ("Matt", 28),
  ("Mark", 16), ("Luke", 24), ("John", 21), ("Acts", 28), ("Rom", 16),
  ("1Cor", 16), ("2Cor", 13), ("Gal", 6), ("Eph", 6), ("Phil", 4),
  ("Col", 4), ("1Thess", 5), ("2Thess", 3), ("1Tim", 6), ("2Tim", 4),
  ("Titus", 3), ("Phlm", 1), ("Heb", 13), ("Jas", 5), ("1Pet", 5),
  ("2Pet", 3), ("1John", 5), ("2John", 1), ("3John", 1), ("Jude", 1),
  ("Rev", 22)
]


/-- Catalog lookup used by `chap_in_range` (`BOOK_MAX_CHAPTERS.get`). -/
def maxChaptersGet (b : String) : Option Nat :=
  (BOOK_MAX_CHAPTERS.find? (fun p => p.1 = b)).map (fun p => p.2)

/-- Predicate `chap_in_range`: false when the book is falsy (absent or empty) or the
chapter is absent; otherwise bounded by the catalog entry, or by 200 for a
code missing from the catalog. -/
def chap_in_range (book_osis : Option String) (chap : Option Nat) : Bool :=
  match book_osis, chap with
  | none, _ => false
  | some _, none => false
  | some b, some c =>
    if b = "" then false
    else
      match maxChaptersGet b with
      | none => decide (1 ≤ c) && decide (c ≤ 200)
      | some mx => decide (1 ≤ c) && decide (c ≤ mx)

/-- Stable insertion of a token into a length-descending list: the token goes
before the first element whose length does not exceed its own, so
equal-length tokens keep their original relative order, as Python's stable
`sorted` does. -/
def insertByLenDesc (x : Str) : List Str → List Str
  | [] => [x]
  | y :: ys => if y.length ≤ x.length then x :: y :: ys else y :: insertByLenDesc x ys

/-- Stable sort by descending length, modelling `sorted` with a length key
and descending order. -/
def sortByLenDesc : List Str → List Str
  | [] => []
  | x :: xs => insertByLenDesc x (sortByLenDesc xs)

/-- List `_BOOK_TOKENS`: the alias-table key set sorted longest-first; this is the
order in which the compiled alternation tries book tokens. -/
def _BOOK_TOKENS : List Str :=
  sortByLenDesc (BOOK_ALIASES.map (fun p => p.1))

/-- First result of the function over the list, in order: the backtracking
search over an ordered list of alternatives. -/
def firstSome {α β : Type} (f : α → Option β) : List α → Option β
  | [] => none
  | a :: as => match f a with
    | some b => some b
    | none => firstSome f as

/-- Case-insensitive literal match of a (lower-case) token against the head
of the text, as the ignore-case flag matches an escaped alias; returns the
rest of the text on success. -/
def matchTokenCI : Str → Str → Option Str
  | [], s => some s
  | _ :: _, [] => none
  | t :: ts, c :: cs => if c.toLower = t then matchTokenCI ts cs else none

/-- The splits a greedy one-to-three-digit group tries, longest first: each
is the digit group together with the remaining text; empty when no digit
leads. -/
def digitSplits (s : Str) : List (Str × Str) :=
  let n := min 3 (s.takeWhile isDigitChar).length
  (List.range n).map (fun i => (s.take (n - i), s.drop (n - i)))

/-- A trailing optional group of whitespace plus one literal character:
consumes them when present, otherwise consumes nothing. -/
def matchOptChar (x : Char) (s : Str) : Str :=
  match s.dropWhile isSpaceChar with
  | [] => s
  | c :: r => if c = x then r else s

/-- Captures of a `RE_REF` match attempt together with the unconsumed rest. -/
structure RefCaps where
  bookCap : Str
  chapCap : Str
  v1Cap : Str
  v2Cap : Option Str
  rest : Str
deriving DecidableEq, Repr

/-- The optional range group: whitespace, a dash character, whitespace, then
a greedy digit group (the longest split stands because everything after it
always succeeds). -/
def matchDashV2 (s : Str) : Option (Str × Str) :=
  match s.dropWhile isSpaceChar with
  | [] => none
  | c :: r =>
    if isDashChar c then (digitSplits (r.dropWhile isSpaceChar)).head?
    else none

/-- Anchored match of `RE_REF` at the start of the text, over an explicit
token alternation: book token, whitespace, chapter digits, a separator out
of colon, full-width colon or 章, whitespace, verse digits, the optional
dash range, the optional trailing 节. Alternation and the chapter/verse
digit groups backtrack exactly as the regex engine does. -/
def matchRefAt_in (toks : List Str) (s : Str) : Option RefCaps :=
  firstSome (fun tok =>
    match matchTokenCI tok s with
    | none => none
    | some r1 =>
      firstSome (fun cp =>
        match (cp.2.dropWhile isSpaceChar) with
        | [] => none
        | c :: r5 =>
          if c = ':' || c = '：' || c = '章' then
            firstSome (fun vp =>
              match matchDashV2 vp.2 with
              | some (v2d, r8) =>
                some ⟨s.take tok.length, cp.1, vp.1, some v2d, matchOptChar '节' r8⟩
              | none =>
                some ⟨s.take tok.length, cp.1, vp.1, none, matchOptChar '节' vp.2⟩)
              (digitSplits (r5.dropWhile isSpaceChar))
          else none)
        (digitSplits (r1.dropWhile isSpaceChar))) toks

/-- Pattern `RE_REF` anchored match with the compiled `_BOOK_TOKENS` alternation. -/
def matchRefAt : Str → Option RefCaps :=
  matchRefAt_in _BOOK_TOKENS

/-- Captures of a `RE_CHAP_ONLY` match attempt with the unconsumed rest. -/
structure ChapCaps where
  bookCap : Str
  chapCap : Str
  rest : Str
deriving DecidableEq, Repr

/-- Anchored match of `RE_CHAP_ONLY` at the start of the text: book token,
whitespace, greedy chapter digits, optional trailing 章. The longest digit
split stands because the rest of the pattern always succeeds. -/
def matchChapAt_in (toks : List Str) (s : Str) : Option ChapCaps :=
  firstSome (fun tok =>
    match matchTokenCI tok s with
    | none => none
    | some r1 =>
      match (digitSplits (r1.dropWhile isSpaceChar)).head? with
      | none => none
      | some (chapd, r3) => some ⟨s.take tok.length, chapd, matchOptChar '章' r3⟩) toks

/-- Pattern `RE_CHAP_ONLY` anchored match with the compiled alternation. -/
def matchChapAt : Str → Option ChapCaps :=
  matchChapAt_in _BOOK_TOKENS

/-- One `RE_REF` match as `finditer` reports it: the named groups plus the
whole matched text and its half-open span. -/
structure RefM where
  bookCap : Str
  chapCap : Str
  v1Cap : Str
  v2Cap : Option Str
  raw : Str
  start : Nat
  stop : Nat
deriving DecidableEq, Repr

/-- One `RE_CHAP_ONLY` match as `finditer` reports it. -/
structure ChapM where
  bookCap : Str
  chapCap : Str
  raw : Str
  start : Nat
  stop : Nat
deriving DecidableEq, Repr

/-- One `finditer` step at a position: on a successful anchored match (by
the match function `f`) emit it and continue right after the matched text,
otherwise retry at the next position (the final, empty position fails and
ends the scan). -/
def refFindStep (f : Str → Option RefCaps) (pos : Nat) (s : Str)
    (cont : Nat → Str → List RefM) : List RefM :=
  match f s with
  | some caps =>
    ⟨caps.bookCap, caps.chapCap, caps.v1Cap, caps.v2Cap,
      s.take (s.length - caps.rest.length), pos, pos + (s.length - caps.rest.length)⟩
      :: cont (pos + (s.length - caps.rest.length)) (s.drop (s.length - caps.rest.length))
  | none =>
    match s with
    | [] => []
    | _ :: srest => cont (pos + 1) srest

/-- Fuelled `finditer` iteration of `refFindStep`. Successful matches always
consume at least one character, so fuel `length + 1` is never exhausted. -/
def refFindAux (f : Str → Option RefCaps) : Nat → Nat → Str → List RefM
  | 0, _, _ => []
  | fuel + 1, pos, s => refFindStep f pos s (fun p2 s2 => refFindAux f fuel p2 s2)

/-- All `RE_REF` matches over an explicit alternation, leftmost first. -/
def refFinditer_in (toks : List Str) (text : Str) : List RefM :=
  refFindAux (matchRefAt_in toks) (text.length + 1) 0 text

/-- All `RE_REF` matches of the text, leftmost first, non-overlapping. -/
def refFinditer : Str → List RefM :=
  refFinditer_in _BOOK_TOKENS

/-- One `finditer` step for the chapter-only pattern, like `refFindStep`. -/
def chapFindStep (f : Str → Option ChapCaps) (pos : Nat) (s : Str)
    (cont : Nat → Str → List ChapM) : List ChapM :=
  match f s with
  | some caps =>
    ⟨caps.bookCap, caps.chapCap, s.take (s.length - caps.rest.length), pos,
      pos + (s.length - caps.rest.length)⟩
      :: cont (pos + (s.length - caps.rest.length)) (s.drop (s.length - caps.rest.length))
  | none =>
    match s with
    | [] => []
    | _ :: srest => cont (pos + 1) srest

/-- Fuelled `finditer` iteration of `chapFindStep`. -/
def chapFindAux (f : Str → Option ChapCaps) : Nat → Nat → Str → List ChapM
  | 0, _, _ => []
  | fuel + 1, pos, s => chapFindStep f pos s (fun p2 s2 => chapFindAux f fuel p2 s2)

/-- All `RE_CHAP_ONLY` matches over an explicit alternation. -/
def chapFinditer_in (toks : List Str) (text : Str) : List ChapM :=
  chapFindAux (matchChapAt_in toks) (text.length + 1) 0 text

/-- All `RE_CHAP_ONLY` matches of the text, leftmost first. -/
def chapFinditer : Str → List ChapM :=
  chapFinditer_in _BOOK_TOKENS

/-- One extracted mention:
`(raw_match, book_osis, chapter, verse_start, verse_end, parse_status, span)`. -/
structure Mention where
  raw : Str
  book_osis : Option String
  chapter : Option Nat
  verse_start : Option Nat
  verse_end : Option Nat
  parse_status : String
  span : Nat × Nat
deriving DecidableEq, Repr

/-- The pass-1 loop body over an explicit alias table: normalize the book,
parse the numbers, default the range end to the start, then emit `ok` when
the bounds check passes and an `unparsed` mention with nulled
book/chapter/verse fields otherwise. -/
def refMention_in (tbl : List (Str × String)) (m : RefM) : Mention :=
  let book := normalize_book_in tbl m.bookCap
  let chap : Option Nat := some (digitsToNat m.chapCap)
  let v1 : Option Nat := some (digitsToNat m.v1Cap)
  let v2 : Option Nat := match m.v2Cap with
    | some d => some (digitsToNat d)
    | none => v1
  if chap_in_range book chap then
    ⟨m.raw, book, chap, v1, v2, "ok", (m.start, m.stop)⟩
  else
    ⟨m.raw, none, none, none, none, "unparsed", (m.start, m.stop)⟩

/-- The pass-1 loop body with the global alias table. -/
def refMention : RefM → Mention :=
  refMention_in BOOK_ALIASES

/-- Whether a pass-1 match passes the bounds check — exactly the condition
under which the loop appends its span to `ref_spans`. -/
def refOk_in (tbl : List (Str × String)) (m : RefM) : Bool :=
  chap_in_range (normalize_book_in tbl m.bookCap) (some (digitsToNat m.chapCap))

/-- The pass-1 bounds check with the global alias table. -/
def refOk : RefM → Bool :=
  refOk_in BOOK_ALIASES

/-- The spans claimed by pass 1 (`ref_spans`): spans of the in-range
matches, in scan order. -/
def okSpans_in (tbl : List (Str × String)) (toks : List Str) (text : Str) :
    List (Nat × Nat) :=
  ((refFinditer_in toks text).filter (refOk_in tbl)).map (fun m => (m.start, m.stop))

/-- List `ref_spans` with the global tables. -/
def okSpans : Str → List (Nat × Nat) :=
  okSpans_in BOOK_ALIASES _BOOK_TOKENS

/-- Predicate `overlaps_any`: half-open interval intersection against any claimed
span. -/
def overlaps_any (span : Nat × Nat) (spans : List (Nat × Nat)) : Bool :=
  spans.any (fun b => decide (span.1 < b.2) && decide (b.1 < span.2))

/-- The mention a surviving pass-2 candidate emits. -/
def chapMention_in (tbl : List (Str × String)) (m : ChapM) : Mention :=
  ⟨m.raw, normalize_book_in tbl m.bookCap, some (digitsToNat m.chapCap), none, none,
    "chapter_only", (m.start, m.stop)⟩

/-- The pass-2 mention with the global alias table. -/
def chapMention : ChapM → Mention :=
  chapMention_in BOOK_ALIASES

/-- The pass-2 loop body: drop a candidate containing a colon, drop one
overlapping a claimed span, emit `chapter_only` when in range, and drop the
rest silently. -/
def pass2Filter_in (tbl : List (Str × String)) (spans : List (Nat × Nat)) (m : ChapM) :
    Option Mention :=
  if m.raw.contains ':' || m.raw.contains '：' then none
  else if overlaps_any (m.start, m.stop) spans then none
  else if chap_in_range (normalize_book_in tbl m.bookCap) (some (digitsToNat m.chapCap)) then
    some (chapMention_in tbl m)
  else none

/-- The pass-2 loop body with the global alias table. -/
def pass2Filter : List (Nat × Nat) → ChapM → Option Mention :=
  pass2Filter_in BOOK_ALIASES

/-- The `out` list as of the early `return` (pass 1 only). -/
def pass1_mentions_in (tbl : List (Str × String)) (toks : List Str) (text : Str) :
    List Mention :=
  (refFinditer_in toks text).map (refMention_in tbl)

/-- Pass 1 with the global tables. -/
def pass1_mentions : Str → List Mention :=
  pass1_mentions_in BOOK_ALIASES _BOOK_TOKENS

/-- The mentions the pass-2 loop appends after pass 1. -/
def pass2_mentions_in (tbl : List (Str × String)) (toks : List Str) (text : Str) :
    List Mention :=
  (chapFinditer_in toks text).filterMap (pass2Filter_in tbl (okSpans_in tbl toks text))

/-- Pass 2 with the global tables. -/
def pass2_mentions : Str → List Mention :=
  pass2_mentions_in BOOK_ALIASES _BOOK_TOKENS

/-- Function `extract_mentions` over explicit tables: pass 1 over `RE_REF`, early
return unless chapter-only references are kept, then the pass-2 scan over
`RE_CHAP_ONLY` appending to the same list. -/
def extract_mentions_in (tbl : List (Str × String)) (toks : List Str) (text : Str)
    (keep_chapter_only : Bool) : List Mention :=
  if !keep_chapter_only then pass1_mentions_in tbl toks text
  else pass1_mentions_in tbl toks text ++ pass2_mentions_in tbl toks text

/-- Function `extract_mentions(text, keep_chapter_only)` of the source, over the
global alias table and compiled alternation. -/
def extract_mentions (text : Str) (keep_chapter_only : Bool := true) : List Mention :=
  extract_mentions_in BOOK_ALIASES _BOOK_TOKENS text keep_chapter_only

/-- State of the `verse_mentions` table: column names in order, rows as cell
lists parallel to the columns (cell contents abstracted to optional
numbers), and the names of the existing indexes. -/
structure TableState where
  cols : List String
  rows : List (List (Option Nat))
  indexes : List String
deriving DecidableEq, Repr

/-- The column list of the current `SCHEMA` literal. -/
def schemaCols : List String :=
  ["id", "doc_id", "p_index", "para_id", "raw_match", "book_osis", "chapter",
   "verse_start", "verse_end", "parse_status"]

/-- SQLite `CREATE TABLE IF NOT EXISTS verse_mentions (...)`: an existing
table is left untouched, otherwise an empty table with the current columns
appears. -/
def createTableIfNotExists (st : Option TableState) : TableState :=
  match st with
  | some t => t
  | none => ⟨schemaCols, [], []⟩

/-- SQLite `CREATE INDEX IF NOT EXISTS name ON verse_mentions(cs)`: a no-op
when the index already exists; otherwise the indexed columns are checked
and a missing one aborts with `no such column`, exactly as `sqlite3`
reports it. -/
def createIndexIfNotExists (name : String) (cs : List String) (t : TableState) :
    Except String TableState :=
  if t.indexes.contains name then .ok t
  else
    match cs.find? (fun c => !t.cols.contains c) with
    | some c => .error ("no such column: " ++ c)
    | none => .ok { t with indexes := t.indexes ++ [name] }

/-- SQLite `ALTER TABLE verse_mentions ADD COLUMN para_id INTEGER`: the column
is appended and every existing row reads back NULL in it. -/
def alterAddColumn (name : String) (t : TableState) : TableState :=
  { t with cols := t.cols ++ [name], rows := t.rows.map (fun r => r ++ [none]) }

/-- Function `ensure_schema`: `executescript(SCHEMA)` runs the four schema statements
in order, stopping at the first error; then the `PRAGMA table_info` driven
auto-migration adds `para_id` and its index when the column is missing. -/
def ensure_schema (st : Option TableState) : Except String TableState := do
  let t := createTableIfNotExists st
  let t ← createIndexIfNotExists "idx_mentions_doc" ["doc_id"] t
  let t ← createIndexIfNotExists "idx_mentions_para" ["para_id"] t
  let t ← createIndexIfNotExists "idx_mentions_book_ch" ["book_osis", "chapter"] t
  if t.cols.contains "para_id" then pure t
  else
    let t2 := alterAddColumn "para_id" t
    createIndexIfNotExists "idx_mentions_para" ["para_id"] t2

/-- A table written by the pre-`para_id` version of the script: the old
column list, one row of data, and the two indexes that version could
create. -/
def oldTable : TableState :=
  ⟨["id", "doc_id", "p_index", "raw_match", "book_osis", "chapter",
    "verse_start", "verse_end", "parse_status"],
   [[some 1, some 7, some 0, some 3, none, some 16, some 1, some 1, some 9]],
   ["idx_mentions_doc", "idx_mentions_book_ch"]⟩


def aliasTableLit : List (Str × String) := [
  ("gen".toList, "Gen"), ("genesis".toList, "Gen"), ("创".toList, "Gen"), ("創".toList, "Gen"),
  ("创世记".toList, "Gen"), ("創世記".toList, "Gen"), ("创世記".toList, "Gen"), ("ex".toList, "Exod"),
  ("exo".toList, "Exod"), ("exod".toList, "Exod"), ("exodus".toList, "Exod"), ("出".toList, "Exod"),
  ("出埃及记".toList, "Exod"), ("出埃及記".toList, "Exod"), ("lev".toList, "Lev"), ("leviticus".toList, "Lev"),
  ("利".toList, "Lev"), ("利未记".toList, "Lev"), ("利未記".toList, "Lev"), ("num".toList, "Num"),
  ("numbers".toList, "Num"), ("民".toList, "Num"), ("民数记".toList, "Num"), ("民數記".toList, "Num"),
  ("deut".toList, "Deut"), ("deuteronomy".toList, "Deut"), ("申".toList, "Deut"), ("申命记".toList, "Deut"),
  ("申命記".toList, "Deut"), ("josh".toList, "Josh"), ("joshua".toList, "Josh"), ("书".toList, "Josh"),
  ("書".toList, "Josh"), ("约书亚记".toList, "Josh"), ("約書亞記".toList, "Josh"), ("约书亚記".toList, "Josh"),
  ("judg".toList, "Judg"), ("judges".toList, "Judg"), ("士".toList, "Judg"), ("士师记".toList, "Judg"),
  ("士師記".toList, "Judg"), ("ruth".toList, "Ruth"), ("得".toList, "Ruth"), ("路得记".toList, "Ruth"),
  ("路得記".toList, "Ruth"), ("1 sam".toList, "1Sam"), ("1sam".toList, "1Sam"), ("i sam".toList, "1Sam"),
  ("1samuel".toList, "1Sam"), ("1 samuel".toList, "1Sam"), ("撒上".toList, "1Sam"), ("撒母耳记上".toList, "1Sam"),
  ("撒母耳記上".toList, "1Sam"), ("2 sam".toList, "2Sam"), ("2sam".toList, "2Sam"), ("ii sam".toList, "2Sam"),
  ("2samuel".toList, "2Sam"), ("2 samuel".toList, "2Sam"), ("撒下".toList, "2Sam"), ("撒母耳记下".toList, "2Sam"),
  ("撒母耳記下".toList, "2Sam"), ("1 kgs".toList, "1Kgs"), ("1kgs".toList, "1Kgs"), ("1 kings".toList, "1Kgs"),
  ("i kgs".toList, "1Kgs"), ("王上".toList, "1Kgs"), ("列王纪上".toList, "1Kgs"), ("列王紀上".toList, "1Kgs"),
  ("2 kgs".toList, "2Kgs"), ("2kgs".toList, "2Kgs"), ("2 kings".toList, "2Kgs"), ("ii kgs".toList, "2Kgs"),
  ("王下".toList, "2Kgs"), ("列王纪下".toList, "2Kgs"), ("列王紀下".toList, "2Kgs"), ("1 chr".toList, "1Chr"),
  ("1chr".toList, "1Chr"), ("1 chronicles".toList, "1Chr"), ("i chr".toList, "1Chr"), ("代上".toList, "1Chr"),
  ("历代志上".toList, "1Chr"), ("歷代志上".toList, "1Chr"), ("2 chr".toList, "2Chr"), ("2chr".toList, "2Chr"),
  ("2 chronicles".toList, "2Chr"), ("ii chr".toList, "2Chr"), ("代下".toList, "2Chr"), ("历代志下".toList, "2Chr"),
  ("歷代志下".toList, "2Chr"), ("ezra".toList, "Ezra"), ("拉".toList, "Ezra"), ("以斯拉记".toList, "Ezra"),
  ("以斯拉記".toList, "Ezra"), ("neh".toList, "Neh"), ("nehemiah".toList, "Neh"), ("尼".toList, "Neh"),
  ("尼希米记".toList, "Neh"), ("尼希米記".toList, "Neh"), ("esth".toList, "Esth"), ("esther".toList, "Esth"),
  ("斯".toList, "Esth"), ("以斯帖记".toList, "Esth"), ("以斯帖記".toList, "Esth"), ("job".toList, "Job"),
  ("伯".toList, "Job"), ("约伯记".toList, "Job"), ("約伯記".toList, "Job"), ("ps".toList, "Ps"),
  ("psalm".toList, "Ps"), ("psalms".toList, "Ps"), ("诗".toList, "Ps"), ("詩".toList, "Ps"),
  ("诗篇".toList, "Ps"), ("詩篇".toList, "Ps"), ("prov".toList, "Prov"), ("proverbs".toList, "Prov"),
  ("箴".toList, "Prov"), ("箴言".toList, "Prov"), ("eccl".toList, "Eccl"), ("ecclesiastes".toList, "Eccl"),
  ("传".toList, "Eccl"), ("傳".toList, "Eccl"), ("传道书".toList, "Eccl"), ("傳道書".toList, "Eccl"),
  ("song".toList, "Song"), ("song of songs".toList, "Song"), ("song of solomon".toList, "Song"), ("雅".toList, "Song"),
  ("雅歌".toList, "Song"), ("isa".toList, "Isa"), ("isaiah".toList, "Isa"), ("赛".toList, "Isa"),
  ("賽".toList, "Isa"), ("以赛亚书".toList, "Isa"), ("以賽亞書".toList, "Isa"), ("jer".toList, "Jer"),
  ("jeremiah".toList, "Jer"), ("耶".toList, "Jer"), ("耶利米书".toList, "Jer"), ("耶利米書".toList, "Jer"),
  ("lam".toList, "Lam"), ("lamentations".toList, "Lam"), ("哀".toList, "Lam"), ("耶利米哀歌".toList, "Lam"),
  ("ezek".toList, "Ezek"), ("ezekiel".toList, "Ezek"), ("结".toList, "Ezek"), ("結".toList, "Ezek"),
  ("以西结书".toList, "Ezek"), ("以西結書".toList, "Ezek"), ("dan".toList, "Dan"), ("daniel".toList, "Dan"),
  ("但".toList, "Dan"), ("但以理书".toList, "Dan"), ("但以理書".toList, "Dan"), ("hos".toList, "Hos"),
  ("hosea".toList, "Hos"), ("何".toList, "Hos"), ("何西阿书".toList, "Hos"), ("何西阿書".toList, "Hos"),
  ("joel".toList, "Joel"), ("珥".toList, "Joel"), ("约珥书".toList, "Joel"), ("約珥書".toList, "Joel"),
  ("amos".toList, "Amos"), ("摩".toList, "Amos"), ("阿摩司书".toList, "Amos"), ("阿摩司書".toList, "Amos"),
  ("obad".toList, "Obad"), ("obadiah".toList, "Obad"), ("俄".toList, "Obad"), ("俄巴底亚书".toList, "Obad"),
  ("俄巴底亞書".toList, "Obad"), ("jonah".toList, "Jonah"), ("拿".toList, "Jonah"), ("约拿书".toList, "Jonah"),
  ("約拿書".toList, "Jonah"), ("mic".toList, "Mic"), ("micah".toList, "Mic"), ("弥".toList, "Mic"),
  ("彌".toList, "Mic"), ("弥迦书".toList, "Mic"), ("彌迦書".toList, "Mic"), ("nah".toList, "Nah"),
  ("nahum".toList, "Nah"), ("鸿".toList, "Nah"), ("鴻".toList, "Nah"), ("那鸿书".toList, "Nah"),
  ("那鴻書".toList, "Nah"), ("hab".toList, "Hab"), ("habakkuk".toList, "Hab"), ("哈".toList, "Hab"),
  ("哈巴谷书".toList, "Hab"), ("哈巴谷書".toList, "Hab"), ("zeph".toList, "Zeph"), ("zephaniah".toList, "Zeph"),
  ("番".toList, "Zeph"), ("西番雅书".toList, "Zeph"), ("西番雅書".toList, "Zeph"), ("hag".toList, "Hag"),
  ("haggai".toList, "Hag"), ("该".toList, "Hag"), ("該".toList, "Hag"), ("哈该书".toList, "Hag"),
  ("哈該書".toList, "Hag"), ("zech".toList, "Zech"), ("zechariah".toList, "Zech"), ("亚".toList, "Zech"),
  ("亞".toList, "Zech"), ("撒迦利亚书".toList, "Zech"), ("撒迦利亞書".toList, "Zech"), ("mal".toList, "Mal"),
  ("malachi".toList, "Mal"), ("玛".toList, "Mal"), ("瑪".toList, "Mal"), ("玛拉基书".toList, "Mal"),
  ("瑪拉基書".toList, "Mal"), ("matt".toList, "Matt"), ("mt".toList, "Matt"), ("matthew".toList, "Matt"),
  ("太".toList, "Matt"), ("马太福音".toList, "Matt"), ("馬太福音".toList, "Matt"), ("mark".toList, "Mark"),
  ("mk".toList, "Mark"), ("可".toList, "Mark"), ("马可福音".toList, "Mark"), ("馬可福音".toList, "Mark"),
  ("luke".toList, "Luke"), ("lk".toList, "Luke"), ("路".toList, "Luke"), ("路加福音".toList, "Luke"),
  ("john".toList, "John"), ("jn".toList, "John"), ("约".toList, "John"), ("約".toList, "John"),
  ("约翰福音".toList, "John"), ("約翰福音".toList, "John"), ("acts".toList, "Acts"), ("act".toList, "Acts"),
  ("徒".toList, "Acts"), ("使徒行传".toList, "Acts"), ("使徒行傳".toList, "Acts"), ("rom".toList, "Rom"),
  ("romans".toList, "Rom"), ("罗".toList, "Rom"), ("羅".toList, "Rom"), ("罗马书".toList, "Rom"),
  ("羅馬書".toList, "Rom"), ("1 cor".toList, "1Cor"), ("1cor".toList, "1Cor"), ("i cor".toList, "1Cor"),
  ("1 corinthians".toList, "1Cor"), ("林前".toList, "1Cor"), ("哥林多前书".toList, "1Cor"), ("哥林多前書".toList, "1Cor"),
  ("2 cor".toList, "2Cor"), ("2cor".toList, "2Cor"), ("ii cor".toList, "2Cor"), ("2 corinthians".toList, "2Cor"),
  ("林后".toList, "2Cor"), ("林後".toList, "2Cor"), ("哥林多后书".toList, "2Cor"), ("哥林多後書".toList, "2Cor"),
  ("gal".toList, "Gal"), ("galatians".toList, "Gal"), ("加".toList, "Gal"), ("加拉太书".toList, "Gal"),
  ("加拉太書".toList, "Gal"), ("eph".toList, "Eph"), ("ephesians".toList, "Eph"), ("弗".toList, "Eph"),
  ("以弗所书".toList, "Eph"), ("以弗所書".toList, "Eph"), ("phil".toList, "Phil"), ("philippians".toList, "Phil"),
  ("腓".toList, "Phil"), ("腓立比书".toList, "Phil"), ("腓立比書".toList, "Phil"), ("col".toList, "Col"),
  ("colossians".toList, "Col"), ("西".toList, "Col"), ("歌罗西书".toList, "Col"), ("歌羅西書".toList, "Col"),
  ("1 thess".toList, "1Thess"), ("1thess".toList, "1Thess"), ("i thess".toList, "1Thess"), ("帖前".toList, "1Thess"),
  ("帖撒罗尼迦前书".toList, "1Thess"), ("帖撒羅尼迦前書".toList, "1Thess"), ("2 thess".toList, "2Thess"), ("2thess".toList, "2Thess"),
  ("ii thess".toList, "2Thess"), ("帖后".toList, "2Thess"), ("帖後".toList, "2Thess"), ("帖撒罗尼迦后书".toList, "2Thess"),
  ("帖撒羅尼迦後書".toList, "2Thess"), ("1 tim".toList, "1Tim"), ("1tim".toList, "1Tim"), ("i tim".toList, "1Tim"),
  ("提前".toList, "1Tim"), ("提摩太前书".toList, "1Tim"), ("提摩太前書".toList, "1Tim"), ("2 tim".toList, "2Tim"),
  ("2tim".toList, "2Tim"), ("ii tim".toList, "2Tim"), ("提后".toList, "2Tim"), ("提後".toList, "2Tim"),
  ("提摩太后书".toList, "2Tim"), ("提摩太後書".toList, "2Tim"), ("titus".toList, "Titus"), ("多".toList, "Titus"),
  ("提多书".toList, "Titus"), ("提多書".toList, "Titus"), ("phlm".toList, "Phlm"), ("philemon".toList, "Phlm"),
  ("门".toList, "Phlm"), ("門".toList, "Phlm"), ("腓利门书".toList, "Phlm"), ("腓利門書".toList, "Phlm"),
  ("heb".toList, "Heb"), ("hebrews".toList, "Heb"), ("来".toList, "Heb"), ("來".toList, "Heb"),
  ("希伯来书".toList, "Heb"), ("希伯來書".toList, "Heb"), ("jas".toList, "Jas"), ("james".toList, "Jas"),
  ("雅各书".toList, "Jas"), ("雅各書".toList, "Jas"), ("1 pet".toList, "1Pet"), ("1pet".toList, "1Pet"),
  ("i pet".toList, "1Pet"), ("彼前".toList, "1Pet"), ("彼得前书".toList, "1Pet"), ("彼得前書".toList, "1Pet"),
  ("2 pet".toList, "2Pet"), ("2pet".toList, "2Pet"), ("ii pet".toList, "2Pet"), ("彼后".toList, "2Pet"),
  ("彼後".toList, "2Pet"), ("彼得后书".toList, "2Pet"), ("彼得後書".toList, "2Pet"), ("1 john".toList, "1John"),
  ("1john".toList, "1John"), ("i john".toList, "1John"), ("约一".toList, "1John"), ("約一".toList, "1John"),
  ("约壹".toList, "1John"), ("約壹".toList, "1John"), ("约翰一书".toList, "1John"), ("約翰一書".toList, "1John"),
  ("2 john".toList, "2John"), ("2john".toList, "2John"), ("ii john".toList, "2John"), ("约二".toList, "2John"),
  ("約二".toList, "2John"), ("约贰".toList, "2John"), ("約貳".toList, "2John"), ("约翰二书".toList, "2John"),
  ("約翰二書".toList, "2John"), ("3 john".toList, "3John"), ("3john".toList, "3John"), ("iii john".toList, "3John"),
  ("约三".toList, "3John"), ("約三".toList, "3John"), ("约叁".toList, "3John"), ("約參".toList, "3John"),
  ("约翰三书".toList, "3John"), ("約翰三書".toList, "3John"), ("jude".toList, "Jude"), ("犹".toList, "Jude"),
  ("猶".toList, "Jude"), ("犹大书".toList, "Jude"), ("猶大書".toList, "Jude"), ("rev".toList, "Rev"),
  ("revelation".toList, "Rev"), ("启".toList, "Rev"), ("啟".toList, "Rev"), ("启示录".toList, "Rev"),
  ("啟示錄".toList, "Rev")
]

def bookTokensLit : List Str := [
  "song of solomon".toList, "song of songs".toList, "1 corinthians".toList, "2 corinthians".toList, "1 chronicles".toList, "2 chronicles".toList,
  "ecclesiastes".toList, "lamentations".toList, "deuteronomy".toList, "philippians".toList, "colossians".toList, "revelation".toList,
  "leviticus".toList, "zephaniah".toList, "zechariah".toList, "galatians".toList, "ephesians".toList, "1 samuel".toList,
  "2 samuel".toList, "nehemiah".toList, "proverbs".toList, "jeremiah".toList, "habakkuk".toList, "ii thess".toList,
  "philemon".toList, "iii john".toList, "genesis".toList, "numbers".toList, "1samuel".toList, "2samuel".toList,
  "1 kings".toList, "2 kings".toList, "ezekiel".toList, "obadiah".toList, "malachi".toList, "matthew".toList,
  "1 thess".toList, "i thess".toList, "帖撒罗尼迦前书".toList, "帖撒羅尼迦前書".toList, "2 thess".toList, "帖撒罗尼迦后书".toList,
  "帖撒羅尼迦後書".toList, "hebrews".toList, "ii john".toList, "exodus".toList, "joshua".toList, "judges".toList,
  "ii sam".toList, "ii kgs".toList, "ii chr".toList, "esther".toList, "psalms".toList, "isaiah".toList,
  "daniel".toList, "haggai".toList, "romans".toList, "ii cor".toList, "1thess".toList, "2thess".toList,
  "ii tim".toList, "ii pet".toList, "1 john".toList, "i john".toList, "2 john".toList, "3 john".toList,
  "1 sam".toList, "i sam".toList, "撒母耳记上".toList, "撒母耳記上".toList, "2 sam".toList, "撒母耳记下".toList,
  "撒母耳記下".toList, "1 kgs".toList, "i kgs".toList, "2 kgs".toList, "1 chr".toList, "i chr".toList,
  "2 chr".toList, "psalm".toList, "耶利米哀歌".toList, "hosea".toList, "俄巴底亚书".toList, "俄巴底亞書".toList,
  "jonah".toList, "micah".toList, "nahum".toList, "撒迦利亚书".toList, "撒迦利亞書".toList, "1 cor".toList,
  "i cor".toList, "哥林多前书".toList, "哥林多前書".toList, "2 cor".toList, "哥林多后书".toList, "哥林多後書".toList,
  "1 tim".toList, "i tim".toList, "提摩太前书".toList, "提摩太前書".toList, "2 tim".toList, "提摩太后书".toList,
  "提摩太後書".toList, "titus".toList, "james".toList, "1 pet".toList, "i pet".toList, "2 pet".toList,
  "1john".toList, "2john".toList, "3john".toList, "exod".toList, "出埃及记".toList, "出埃及記".toList,
  "deut".toList, "josh".toList, "约书亚记".toList, "約書亞記".toList, "约书亚記".toList, "judg".toList,
  "ruth".toList, "1sam".toList, "2sam".toList, "1kgs".toList, "列王纪上".toList, "列王紀上".toList,
  "2kgs".toList, "列王纪下".toList, "列王紀下".toList, "1chr".toList, "历代志上".toList, "歷代志上".toList,
  "2chr".toList, "历代志下".toList, "歷代志下".toList, "ezra".toList, "以斯拉记".toList, "以斯拉記".toList,
  "尼希米记".toList, "尼希米記".toList, "esth".toList, "以斯帖记".toList, "以斯帖記".toList, "prov".toList,
  "eccl".toList, "song".toList, "以赛亚书".toList, "以賽亞書".toList, "耶利米书".toList, "耶利米書".toList,
  "ezek".toList, "以西结书".toList, "以西結書".toList, "但以理书".toList, "但以理書".toList, "何西阿书".toList,
  "何西阿書".toList, "joel".toList, "amos".toList, "阿摩司书".toList, "阿摩司書".toList, "obad".toList,
  "哈巴谷书".toList, "哈巴谷書".toList, "zeph".toList, "西番雅书".toList, "西番雅書".toList, "zech".toList,
  "玛拉基书".toList, "瑪拉基書".toList, "matt".toList, "马太福音".toList, "馬太福音".toList, "mark".toList,
  "马可福音".toList, "馬可福音".toList, "luke".toList, "路加福音".toList, "john".toList, "约翰福音".toList,
  "約翰福音".toList, "acts".toList, "使徒行传".toList, "使徒行傳".toList, "1cor".toList, "2cor".toList,
  "加拉太书".toList, "加拉太書".toList, "以弗所书".toList, "以弗所書".toList, "phil".toList, "腓立比书".toList,
  "腓立比書".toList, "歌罗西书".toList, "歌羅西書".toList, "1tim".toList, "2tim".toList, "phlm".toList,
  "腓利门书".toList, "腓利門書".toList, "希伯来书".toList, "希伯來書".toList, "1pet".toList, "彼得前书".toList,
  "彼得前書".toList, "2pet".toList, "彼得后书".toList, "彼得後書".toList, "约翰一书".toList, "約翰一書".toList,
  "约翰二书".toList, "約翰二書".toList, "约翰三书".toList, "約翰三書".toList, "jude".toList, "gen".toList,
  "创世记".toList, "創世記".toList, "创世記".toList, "exo".toList, "lev".toList, "利未记".toList,
  "利未記".toList, "num".toList, "民数记".toList, "民數記".toList, "申命记".toList, "申命記".toList,
  "士师记".toList, "士師記".toList, "路得记".toList, "路得記".toList, "neh".toList, "job".toList,
  "约伯记".toList, "約伯記".toList, "传道书".toList, "傳道書".toList, "isa".toList, "jer".toList,
  "lam".toList, "dan".toList, "hos".toList, "约珥书".toList, "約珥書".toList, "约拿书".toList,
  "約拿書".toList, "mic".toList, "弥迦书".toList, "彌迦書".toList, "nah".toList, "那鸿书".toList,
  "那鴻書".toList, "hab".toList, "hag".toList, "哈该书".toList, "哈該書".toList, "mal".toList,
  "act".toList, "rom".toList, "罗马书".toList, "羅馬書".toList, "gal".toList, "eph".toList,
  "col".toList, "提多书".toList, "提多書".toList, "heb".toList, "jas".toList, "雅各书".toList,
  "雅各書".toList, "犹大书".toList, "猶大書".toList, "rev".toList, "启示录".toList, "啟示錄".toList,
  "ex".toList, "撒上".toList, "撒下".toList, "王上".toList, "王下".toList, "代上".toList,
  "代下".toList, "ps".toList, "诗篇".toList, "詩篇".toList, "箴言".toList, "雅歌".toList,
  "mt".toList, "mk".toList, "lk".toList, "jn".toList, "林前".toList, "林后".toList,
  "林後".toList, "帖前".toList, "帖后".toList, "帖後".toList, "提前".toList, "提后".toList,
  "提後".toList, "彼前".toList, "彼后".toList, "彼後".toList, "约一".toList, "約一".toList,
  "约壹".toList, "約壹".toList, "约二".toList, "約二".toList, "约贰".toList, "約貳".toList,
  "约三".toList, "約三".toList, "约叁".toList, "約參".toList, "创".toList, "創".toList,
  "出".toList, "利".toList, "民".toList, "申".toList, "书".toList, "書".toList,
  "士".toList, "得".toList, "拉".toList, "尼".toList, "斯".toList, "伯".toList,
  "诗".toList, "詩".toList, "箴".toList, "传".toList, "傳".toList, "雅".toList,
  "赛".toList, "賽".toList, "耶".toList, "哀".toList, "结".toList, "結".toList,
  "但".toList, "何".toList, "珥".toList, "摩".toList, "俄".toList, "拿".toList,
  "弥".toList, "彌".toList, "鸿".toList, "鴻".toList, "哈".toList, "番".toList,
  "该".toList, "該".toList, "亚".toList, "亞".toList, "玛".toList, "瑪".toList,
  "太".toList, "可".toList, "路".toList, "约".toList, "約".toList, "徒".toList,
  "罗".toList, "羅".toList, "加".toList, "弗".toList, "腓".toList, "西".toList,
  "多".toList, "门".toList, "門".toList, "来".toList, "來".toList, "犹".toList,
  "猶".toList, "启".toList, "啟".toList
]



/-- Adjacent non-increasing-length check, an executable witness that a token
list is sorted by descending length. -/
def lenDescChainB : List Str → Bool
  | [] => true
  | [_] => true
  | x :: y :: r => (decide (y.length ≤ x.length)) && lenDescChainB (y :: r)

/-- Registrations 0 through 47, a block of the full list. -/
def regsChunk1 : List (String × String) := [
  ("gen", "Gen"), ("genesis", "Gen"), ("创", "Gen"), ("創", "Gen"), ("创世记", "Gen"),
  ("創世記", "Gen"), ("创世記", "Gen"), ("ex", "Exod"), ("exo", "Exod"), ("exod", "Exod"),
  ("exodus", "Exod"), ("出", "Exod"), ("出埃及记", "Exod"), ("出埃及記", "Exod"), ("lev", "Lev"),
  ("leviticus", "Lev"), ("利", "Lev"), ("利未记", "Lev"), ("利未記", "Lev"), ("num", "Num"),
  ("numbers", "Num"), ("民", "Num"), ("民数记", "Num"), ("民數記", "Num"), ("deut", "Deut"),
  ("deuteronomy", "Deut"), ("申", "Deut"), ("申命记", "Deut"), ("申命記", "Deut"), ("josh", "Josh"),
  ("joshua", "Josh"), ("书", "Josh"), ("書", "Josh"), ("约书亚记", "Josh"), ("約書亞記", "Josh"),
  ("约书亚記", "Josh"), ("約書亞記", "Josh"), ("judg", "Judg"), ("judges", "Judg"), ("士", "Judg"),
  ("士师记", "Judg"), ("士師記", "Judg"), ("ruth", "Ruth"), ("得", "Ruth"), ("路得记", "Ruth"),
  ("路得記", "Ruth"), ("1 sam", "1Sam"), ("1sam", "1Sam")
]

/-- Registrations 48 through 95, a block of the full list. -/
def regsChunk2 : List (String × String) := [
  ("i sam", "1Sam"), ("1samuel", "1Sam"), ("1 samuel", "1Sam"), ("撒上", "1Sam"), ("撒母耳记上", "1Sam"),
  ("撒母耳記上", "1Sam"), ("2 sam", "2Sam"), ("2sam", "2Sam"), ("ii sam", "2Sam"), ("2samuel", "2Sam"),
  ("2 samuel", "2Sam"), ("撒下", "2Sam"), ("撒母耳记下", "2Sam"), ("撒母耳記下", "2Sam"), ("1 kgs", "1Kgs"),
  ("1kgs", "1Kgs"), ("1 kings", "1Kgs"), ("i kgs", "1Kgs"), ("王上", "1Kgs"), ("列王纪上", "1Kgs"),
  ("列王紀上", "1Kgs"), ("2 kgs", "2Kgs"), ("2kgs", "2Kgs"), ("2 kings", "2Kgs"), ("ii kgs", "2Kgs"),
  ("王下", "2Kgs"), ("列王纪下", "2Kgs"), ("列王紀下", "2Kgs"), ("1 chr", "1Chr"), ("1chr", "1Chr"),
  ("1 chronicles", "1Chr"), ("i chr", "1Chr"), ("代上", "1Chr"), ("历代志上", "1Chr"), ("歷代志上", "1Chr"),
  ("2 chr", "2Chr"), ("2chr", "2Chr"), ("2 chronicles", "2Chr"), ("ii chr", "2Chr"), ("代下", "2Chr"),
  ("历代志下", "2Chr"), ("歷代志下", "2Chr"), ("ezra", "Ezra"), ("拉", "Ezra"), ("以斯拉记", "Ezra"),
  ("以斯拉記", "Ezra"), ("neh", "Neh"), ("nehemiah", "Neh")
]

/-- Registrations 96 through 143, a block of the full list. -/
def regsChunk3 : List (String × String) := [
  ("尼", "Neh"), ("尼希米记", "Neh"), ("尼希米記", "Neh"), ("esth", "Esth"), ("esther", "Esth"),
  ("斯", "Esth"), ("以斯帖记", "Esth"), ("以斯帖記", "Esth"), ("job", "Job"), ("伯", "Job"),
  ("约伯记", "Job"), ("約伯記", "Job"), ("ps", "Ps"), ("psalm", "Ps"), ("psalms", "Ps"),
  ("诗", "Ps"), ("詩", "Ps"), ("诗篇", "Ps"), ("詩篇", "Ps"), ("prov", "Prov"),
  ("proverbs", "Prov"), ("箴", "Prov"), ("箴言", "Prov"), ("eccl", "Eccl"), ("ecclesiastes", "Eccl"),
  ("传", "Eccl"), ("傳", "Eccl"), ("传道书", "Eccl"), ("傳道書", "Eccl"), ("song", "Song"),
  ("song of songs", "Song"), ("song of solomon", "Song"), ("雅", "Song"), ("雅歌", "Song"), ("isa", "Isa"),
  ("isaiah", "Isa"), ("赛", "Isa"), ("賽", "Isa"), ("以赛亚书", "Isa"), ("以賽亞書", "Isa"),
  ("jer", "Jer"), ("jeremiah", "Jer"), ("耶", "Jer"), ("耶利米书", "Jer"), ("耶利米書", "Jer"),
  ("lam", "Lam"), ("lamentations", "Lam"), ("哀", "Lam")
]

/-- Registrations 144 through 191, a block of the full list. -/
def regsChunk4 : List (String × String) := [
  ("耶利米哀歌", "Lam"), ("耶利米哀歌", "Lam"), ("ezek", "Ezek"), ("ezekiel", "Ezek"), ("结", "Ezek"),
  ("結", "Ezek"), ("以西结书", "Ezek"), ("以西結書", "Ezek"), ("dan", "Dan"), ("daniel", "Dan"),
  ("但", "Dan"), ("但以理书", "Dan"), ("但以理書", "Dan"), ("hos", "Hos"), ("hosea", "Hos"),
  ("何", "Hos"), ("何西阿书", "Hos"), ("何西阿書", "Hos"), ("joel", "Joel"), ("珥", "Joel"),
  ("约珥书", "Joel"), ("約珥書", "Joel"), ("amos", "Amos"), ("摩", "Amos"), ("阿摩司书", "Amos"),
  ("阿摩司書", "Amos"), ("obad", "Obad"), ("obadiah", "Obad"), ("俄", "Obad"), ("俄巴底亚书", "Obad"),
  ("俄巴底亞書", "Obad"), ("jonah", "Jonah"), ("拿", "Jonah"), ("约拿书", "Jonah"), ("約拿書", "Jonah"),
  ("mic", "Mic"), ("micah", "Mic"), ("弥", "Mic"), ("彌", "Mic"), ("弥迦书", "Mic"),
  ("彌迦書", "Mic"), ("nah", "Nah"), ("nahum", "Nah"), ("鸿", "Nah"), ("鴻", "Nah"),
  ("那鸿书", "Nah"), ("那鴻書", "Nah"), ("hab", "Hab")
]

/-- Registrations 192 through 239, a block of the full list. -/
def regsChunk5 : List (String × String) := [
  ("habakkuk", "Hab"), ("哈", "Hab"), ("哈巴谷书", "Hab"), ("哈巴谷書", "Hab"), ("zeph", "Zeph"),
  ("zephaniah", "Zeph"), ("番", "Zeph"), ("西番雅书", "Zeph"), ("西番雅書", "Zeph"), ("hag", "Hag"),
  ("haggai", "Hag"), ("该", "Hag"), ("該", "Hag"), ("哈该书", "Hag"), ("哈該書", "Hag"),
  ("zech", "Zech"), ("zechariah", "Zech"), ("亚", "Zech"), ("亞", "Zech"), ("撒迦利亚书", "Zech"),
  ("撒迦利亞書", "Zech"), ("mal", "Mal"), ("malachi", "Mal"), ("玛", "Mal"), ("瑪", "Mal"),
  ("玛拉基书", "Mal"), ("瑪拉基書", "Mal"), ("matt", "Matt"), ("mt", "Matt"), ("matthew", "Matt"),
  ("太", "Matt"), ("马太福音", "Matt"), ("馬太福音", "Matt"), ("mark", "Mark"), ("mk", "Mark"),
  ("可", "Mark"), ("马可福音", "Mark"), ("馬可福音", "Mark"), ("luke", "Luke"), ("lk", "Luke"),
  ("路", "Luke"), ("路加福音", "Luke"), ("john", "John"), ("jn", "John"), ("约", "John"),
  ("約", "John"), ("约翰福音", "John"), ("約翰福音", "John")
]

/-- Registrations 240 through 287, a block of the full list. -/
def regsChunk6 : List (String × String) := [
  ("acts", "Acts"), ("act", "Acts"), ("徒", "Acts"), ("使徒行传", "Acts"), ("使徒行傳", "Acts"),
  ("rom", "Rom"), ("romans", "Rom"), ("罗", "Rom"), ("羅", "Rom"), ("罗马书", "Rom"),
  ("羅馬書", "Rom"), ("1 cor", "1Cor"), ("1cor", "1Cor"), ("i cor", "1Cor"), ("1 corinthians", "1Cor"),
  ("林前", "1Cor"), ("哥林多前书", "1Cor"), ("哥林多前書", "1Cor"), ("2 cor", "2Cor"), ("2cor", "2Cor"),
  ("ii cor", "2Cor"), ("2 corinthians", "2Cor"), ("林后", "2Cor"), ("林後", "2Cor"), ("哥林多后书", "2Cor"),
  ("哥林多後書", "2Cor"), ("gal", "Gal"), ("galatians", "Gal"), ("加", "Gal"), ("加拉太书", "Gal"),
  ("加拉太書", "Gal"), ("eph", "Eph"), ("ephesians", "Eph"), ("弗", "Eph"), ("以弗所书", "Eph"),
  ("以弗所書", "Eph"), ("phil", "Phil"), ("philippians", "Phil"), ("腓", "Phil"), ("腓立比书", "Phil"),
  ("腓立比書", "Phil"), ("col", "Col"), ("colossians", "Col"), ("西", "Col"), ("歌罗西书", "Col"),
  ("歌羅西書", "Col"), ("1 thess", "1Thess"), ("1thess", "1Thess")
]

/-- Registrations 288 through 335, a block of the full list. -/
def regsChunk7 : List (String × String) := [
  ("i thess", "1Thess"), ("帖前", "1Thess"), ("帖撒罗尼迦前书", "1Thess"), ("帖撒羅尼迦前書", "1Thess"), ("2 thess", "2Thess"),
  ("2thess", "2Thess"), ("ii thess", "2Thess"), ("帖后", "2Thess"), ("帖後", "2Thess"), ("帖撒罗尼迦后书", "2Thess"),
  ("帖撒羅尼迦後書", "2Thess"), ("1 tim", "1Tim"), ("1tim", "1Tim"), ("i tim", "1Tim"), ("提前", "1Tim"),
  ("提摩太前书", "1Tim"), ("提摩太前書", "1Tim"), ("2 tim", "2Tim"), ("2tim", "2Tim"), ("ii tim", "2Tim"),
  ("提后", "2Tim"), ("提後", "2Tim"), ("提摩太后书", "2Tim"), ("提摩太後書", "2Tim"), ("titus", "Titus"),
  ("多", "Titus"), ("提多书", "Titus"), ("提多書", "Titus"), ("phlm", "Phlm"), ("philemon", "Phlm"),
  ("门", "Phlm"), ("門", "Phlm"), ("腓利门书", "Phlm"), ("腓利門書", "Phlm"), ("heb", "Heb"),
  ("hebrews", "Heb"), ("来", "Heb"), ("來", "Heb"), ("希伯来书", "Heb"), ("希伯來書", "Heb"),
  ("jas", "Jas"), ("james", "Jas"), ("雅各书", "Jas"), ("雅各書", "Jas"), ("1 pet", "1Pet"),
  ("1pet", "1Pet"), ("i pet", "1Pet"), ("彼前", "1Pet")
]

/-- Registrations 336 through 382, a block of the full list. -/
def regsChunk8 : List (String × String) := [
  ("彼得前书", "1Pet"), ("彼得前書", "1Pet"), ("2 pet", "2Pet"), ("2pet", "2Pet"), ("ii pet", "2Pet"),
  ("彼后", "2Pet"), ("彼後", "2Pet"), ("彼得后书", "2Pet"), ("彼得後書", "2Pet"), ("1 john", "1John"),
  ("1john", "1John"), ("i john", "1John"), ("约一", "1John"), ("約一", "1John"), ("约壹", "1John"),
  ("約壹", "1John"), ("约翰一书", "1John"), ("約翰一書", "1John"), ("2 john", "2John"), ("2john", "2John"),
  ("ii john", "2John"), ("约二", "2John"), ("約二", "2John"), ("约贰", "2John"), ("約貳", "2John"),
  ("约翰二书", "2John"), ("約翰二書", "2John"), ("3 john", "3John"), ("3john", "3John"), ("iii john", "3John"),
  ("约三", "3John"), ("約三", "3John"), ("约叁", "3John"), ("約參", "3John"), ("约翰三书", "3John"),
  ("約翰三書", "3John"), ("jude", "Jude"), ("犹", "Jude"), ("猶", "Jude"), ("犹大书", "Jude"),
  ("猶大書", "Jude"), ("rev", "Rev"), ("revelation", "Rev"), ("启", "Rev"), ("啟", "Rev"),
  ("启示录", "Rev"), ("啟示錄", "Rev")
]

/-- The alias table after the first 48 registrations. -/
def aliasStep1 : List (Str × String) := [
  ("gen".toList, "Gen"), ("genesis".toList, "Gen"), ("创".toList, "Gen"), ("創".toList, "Gen"),
  ("创世记".toList, "Gen"), ("創世記".toList, "Gen"), ("创世記".toList, "Gen"), ("ex".toList, "Exod"),
  ("exo".toList, "Exod"), ("exod".toList, "Exod"), ("exodus".toList, "Exod"), ("出".toList, "Exod"),
  ("出埃及记".toList, "Exod"), ("出埃及記".toList, "Exod"), ("lev".toList, "Lev"), ("leviticus".toList, "Lev"),
  ("利".toList, "Lev"), ("利未记".toList, "Lev"), ("利未記".toList, "Lev"), ("num".toList, "Num"),
  ("numbers".toList, "Num"), ("民".toList, "Num"), ("民数记".toList, "Num"), ("民數記".toList, "Num"),
  ("deut".toList, "Deut"), ("deuteronomy".toList, "Deut"), ("申".toList, "Deut"), ("申命记".toList, "Deut"),
  ("申命記".toList, "Deut"), ("josh".toList, "Josh"), ("joshua".toList, "Josh"), ("书".toList, "Josh"),
  ("書".toList, "Josh"), ("约书亚记".toList, "Josh"), ("約書亞記".toList, "Josh"), ("约书亚記".toList, "Josh"),
  ("judg".toList, "Judg"), ("judges".toList, "Judg"), ("士".toList, "Judg"), ("士师记".toList, "Judg"),
  ("士師記".toList, "Judg"), ("ruth".toList, "Ruth"), ("得".toList, "Ruth"), ("路得记".toList, "Ruth"),
  ("路得記".toList, "Ruth"), ("1 sam".toList, "1Sam"), ("1sam".toList, "1Sam")
]

/-- The alias table after the first 96 registrations. -/
def aliasStep2 : List (Str × String) := [
  ("gen".toList, "Gen"), ("genesis".toList, "Gen"), ("创".toList, "Gen"), ("創".toList, "Gen"),
  ("创世记".toList, "Gen"), ("創世記".toList, "Gen"), ("创世記".toList, "Gen"), ("ex".toList, "Exod"),
  ("exo".toList, "Exod"), ("exod".toList, "Exod"), ("exodus".toList, "Exod"), ("出".toList, "Exod"),
  ("出埃及记".toList, "Exod"), ("出埃及記".toList, "Exod"), ("lev".toList, "Lev"), ("leviticus".toList, "Lev"),
  ("利".toList, "Lev"), ("利未记".toList, "Lev"), ("利未記".toList, "Lev"), ("num".toList, "Num"),
  ("numbers".toList, "Num"), ("民".toList, "Num"), ("民数记".toList, "Num"), ("民數記".toList, "Num"),
  ("deut".toList, "Deut"), ("deuteronomy".toList, "Deut"), ("申".toList, "Deut"), ("申命记".toList, "Deut"),
  ("申命記".toList, "Deut"), ("josh".toList, "Josh"), ("joshua".toList, "Josh"), ("书".toList, "Josh"),
  ("書".toList, "Josh"), ("约书亚记".toList, "Josh"), ("約書亞記".toList, "Josh"), ("约书亚記".toList, "Josh"),
  ("judg".toList, "Judg"), ("judges".toList, "Judg"), ("士".toList, "Judg"), ("士师记".toList, "Judg"),
  ("士師記".toList, "Judg"), ("ruth".toList, "Ruth"), ("得".toList, "Ruth"), ("路得记".toList, "Ruth"),
  ("路得記".toList, "Ruth"), ("1 sam".toList, "1Sam"), ("1sam".toList, "1Sam"), ("i sam".toList, "1Sam"),
  ("1samuel".toList, "1Sam"), ("1 samuel".toList, "1Sam"), ("撒上".toList, "1Sam"), ("撒母耳记上".toList, "1Sam"),
  ("撒母耳記上".toList, "1Sam"), ("2 sam".toList, "2Sam"), ("2sam".toList, "2Sam"), ("ii sam".toList, "2Sam"),
  ("2samuel".toList, "2Sam"), ("2 samuel".toList, "2Sam"), ("撒下".toList, "2Sam"), ("撒母耳记下".toList, "2Sam"),
  ("撒母耳記下".toList, "2Sam"), ("1 kgs".toList, "1Kgs"), ("1kgs".toList, "1Kgs"), ("1 kings".toList, "1Kgs"),
  ("i kgs".toList, "1Kgs"), ("王上".toList, "1Kgs"), ("列王纪上".toList, "1Kgs"), ("列王紀上".toList, "1Kgs"),
  ("2 kgs".toList, "2Kgs"), ("2kgs".toList, "2Kgs"), ("2 kings".toList, "2Kgs"), ("ii kgs".toList, "2Kgs"),
  ("王下".toList, "2Kgs"), ("列王纪下".toList, "2Kgs"), ("列王紀下".toList, "2Kgs"), ("1 chr".toList, "1Chr"),
  ("1chr".toList, "1Chr"), ("1 chronicles".toList, "1Chr"), ("i chr".toList, "1Chr"), ("代上".toList, "1Chr"),
  ("历代志上".toList, "1Chr"), ("歷代志上".toList, "1Chr"), ("2 chr".toList, "2Chr"), ("2chr".toList, "2Chr"),
  ("2 chronicles".toList, "2Chr"), ("ii chr".toList, "2Chr"), ("代下".toList, "2Chr"), ("历代志下".toList, "2Chr"),
  ("歷代志下".toList, "2Chr"), ("ezra".toList, "Ezra"), ("拉".toList, "Ezra"), ("以斯拉记".toList, "Ezra"),
  ("以斯拉記".toList, "Ezra"), ("neh".toList, "Neh"), ("nehemiah".toList, "Neh")
]

/-- The alias table after the first 144 registrations. -/
def aliasStep3 : List (Str × String) := [
  ("gen".toList, "Gen"), ("genesis".toList, "Gen"), ("创".toList, "Gen"), ("創".toList, "Gen"),
  ("创世记".toList, "Gen"), ("創世記".toList, "Gen"), ("创世記".toList, "Gen"), ("ex".toList, "Exod"),
  ("exo".toList, "Exod"), ("exod".toList, "Exod"), ("exodus".toList, "Exod"), ("出".toList, "Exod"),
  ("出埃及记".toList, "Exod"), ("出埃及記".toList, "Exod"), ("lev".toList, "Lev"), ("leviticus".toList, "Lev"),
  ("利".toList, "Lev"), ("利未记".toList, "Lev"), ("利未記".toList, "Lev"), ("num".toList, "Num"),
  ("numbers".toList, "Num"), ("民".toList, "Num"), ("民数记".toList, "Num"), ("民數記".toList, "Num"),
  ("deut".toList, "Deut"), ("deuteronomy".toList, "Deut"), ("申".toList, "Deut"), ("申命记".toList, "Deut"),
  ("申命記".toList, "Deut"), ("josh".toList, "Josh"), ("joshua".toList, "Josh"), ("书".toList, "Josh"),
  ("書".toList, "Josh"), ("约书亚记".toList, "Josh"), ("約書亞記".toList, "Josh"), ("约书亚記".toList, "Josh"),
  ("judg".toList, "Judg"), ("judges".toList, "Judg"), ("士".toList, "Judg"), ("士师记".toList, "Judg"),
  ("士師記".toList, "Judg"), ("ruth".toList, "Ruth"), ("得".toList, "Ruth"), ("路得记".toList, "Ruth"),
  ("路得記".toList, "Ruth"), ("1 sam".toList, "1Sam"), ("1sam".toList, "1Sam"), ("i sam".toList, "1Sam"),
  ("1samuel".toList, "1Sam"), ("1 samuel".toList, "1Sam"), ("撒上".toList, "1Sam"), ("撒母耳记上".toList, "1Sam"),
  ("撒母耳記上".toList, "1Sam"), ("2 sam".toList, "2Sam"), ("2sam".toList, "2Sam"), ("ii sam".toList, "2Sam"),
  ("2samuel".toList, "2Sam"), ("2 samuel".toList, "2Sam"), ("撒下".toList, "2Sam"), ("撒母耳记下".toList, "2Sam"),
  ("撒母耳記下".toList, "2Sam"), ("1 kgs".toList, "1Kgs"), ("1kgs".toList, "1Kgs"), ("1 kings".toList, "1Kgs"),
  ("i kgs".toList, "1Kgs"), ("王上".toList, "1Kgs"), ("列王纪上".toList, "1Kgs"), ("列王紀上".toList, "1Kgs"),
  ("2 kgs".toList, "2Kgs"), ("2kgs".toList, "2Kgs"), ("2 kings".toList, "2Kgs"), ("ii kgs".toList, "2Kgs"),
  ("王下".toList, "2Kgs"), ("列王纪下".toList, "2Kgs"), ("列王紀下".toList, "2Kgs"), ("1 chr".toList, "1Chr"),
  ("1chr".toList, "1Chr"), ("1 chronicles".toList, "1Chr"), ("i chr".toList, "1Chr"), ("代上".toList, "1Chr"),
  ("历代志上".toList, "1Chr"), ("歷代志上".toList, "1Chr"), ("2 chr".toList, "2Chr"), ("2chr".toList, "2Chr"),
  ("2 chronicles".toList, "2Chr"), ("ii chr".toList, "2Chr"), ("代下".toList, "2Chr"), ("历代志下".toList, "2Chr"),
  ("歷代志下".toList, "2Chr"), ("ezra".toList, "Ezra"), ("拉".toList, "Ezra"), ("以斯拉记".toList, "Ezra"),
  ("以斯拉記".toList, "Ezra"), ("neh".toList, "Neh"), ("nehemiah".toList, "Neh"), ("尼".toList, "Neh"),
  ("尼希米记".toList, "Neh"), ("尼希米記".toList, "Neh"), ("esth".toList, "Esth"), ("esther".toList, "Esth"),
  ("斯".toList, "Esth"), ("以斯帖记".toList, "Esth"), ("以斯帖記".toList, "Esth"), ("job".toList, "Job"),
  ("伯".toList, "Job"), ("约伯记".toList, "Job"), ("約伯記".toList, "Job"), ("ps".toList, "Ps"),
  ("psalm".toList, "Ps"), ("psalms".toList, "Ps"), ("诗".toList, "Ps"), ("詩".toList, "Ps"),
  ("诗篇".toList, "Ps"), ("詩篇".toList, "Ps"), ("prov".toList, "Prov"), ("proverbs".toList, "Prov"),
  ("箴".toList, "Prov"), ("箴言".toList, "Prov"), ("eccl".toList, "Eccl"), ("ecclesiastes".toList, "Eccl"),
  ("传".toList, "Eccl"), ("傳".toList, "Eccl"), ("传道书".toList, "Eccl"), ("傳道書".toList, "Eccl"),
  ("song".toList, "Song"), ("song of songs".toList, "Song"), ("song of solomon".toList, "Song"), ("雅".toList, "Song"),
  ("雅歌".toList, "Song"), ("isa".toList, "Isa"), ("isaiah".toList, "Isa"), ("赛".toList, "Isa"),
  ("賽".toList, "Isa"), ("以赛亚书".toList, "Isa"), ("以賽亞書".toList, "Isa"), ("jer".toList, "Jer"),
  ("jeremiah".toList, "Jer"), ("耶".toList, "Jer"), ("耶利米书".toList, "Jer"), ("耶利米書".toList, "Jer"),
  ("lam".toList, "Lam"), ("lamentations".toList, "Lam"), ("哀".toList, "Lam")
]

/-- The alias table after the first 192 registrations. -/
def aliasStep4 : List (Str × String) := [
  ("gen".toList, "Gen"), ("genesis".toList, "Gen"), ("创".toList, "Gen"), ("創".toList, "Gen"),
  ("创世记".toList, "Gen"), ("創世記".toList, "Gen"), ("创世記".toList, "Gen"), ("ex".toList, "Exod"),
  ("exo".toList, "Exod"), ("exod".toList, "Exod"), ("exodus".toList, "Exod"), ("出".toList, "Exod"),
  ("出埃及记".toList, "Exod"), ("出埃及記".toList, "Exod"), ("lev".toList, "Lev"), ("leviticus".toList, "Lev"),
  ("利".toList, "Lev"), ("利未记".toList, "Lev"), ("利未記".toList, "Lev"), ("num".toList, "Num"),
  ("numbers".toList, "Num"), ("民".toList, "Num"), ("民数记".toList, "Num"), ("民數記".toList, "Num"),
  ("deut".toList, "Deut"), ("deuteronomy".toList, "Deut"), ("申".toList, "Deut"), ("申命记".toList, "Deut"),
  ("申命記".toList, "Deut"), ("josh".toList, "Josh"), ("joshua".toList, "Josh"), ("书".toList, "Josh"),
  ("書".toList, "Josh"), ("约书亚记".toList, "Josh"), ("約書亞記".toList, "Josh"), ("约书亚記".toList, "Josh"),
  ("judg".toList, "Judg"), ("judges".toList, "Judg"), ("士".toList, "Judg"), ("士师记".toList, "Judg"),
  ("士師記".toList, "Judg"), ("ruth".toList, "Ruth"), ("得".toList, "Ruth"), ("路得记".toList, "Ruth"),
  ("路得記".toList, "Ruth"), ("1 sam".toList, "1Sam"), ("1sam".toList, "1Sam"), ("i sam".toList, "1Sam"),
  ("1samuel".toList, "1Sam"), ("1 samuel".toList, "1Sam"), ("撒上".toList, "1Sam"), ("撒母耳记上".toList, "1Sam"),
  ("撒母耳記上".toList, "1Sam"), ("2 sam".toList, "2Sam"), ("2sam".toList, "2Sam"), ("ii sam".toList, "2Sam"),
  ("2samuel".toList, "2Sam"), ("2 samuel".toList, "2Sam"), ("撒下".toList, "2Sam"), ("撒母耳记下".toList, "2Sam"),
  ("撒母耳記下".toList, "2Sam"), ("1 kgs".toList, "1Kgs"), ("1kgs".toList, "1Kgs"), ("1 kings".toList, "1Kgs"),
  ("i kgs".toList, "1Kgs"), ("王上".toList, "1Kgs"), ("列王纪上".toList, "1Kgs"), ("列王紀上".toList, "1Kgs"),
  ("2 kgs".toList, "2Kgs"), ("2kgs".toList, "2Kgs"), ("2 kings".toList, "2Kgs"), ("ii kgs".toList, "2Kgs"),
  ("王下".toList, "2Kgs"), ("列王纪下".toList, "2Kgs"), ("列王紀下".toList, "2Kgs"), ("1 chr".toList, "1Chr"),
  ("1chr".toList, "1Chr"), ("1 chronicles".toList, "1Chr"), ("i chr".toList, "1Chr"), ("代上".toList, "1Chr"),
  ("历代志上".toList, "1Chr"), ("歷代志上".toList, "1Chr"), ("2 chr".toList, "2Chr"), ("2chr".toList, "2Chr"),
  ("2 chronicles".toList, "2Chr"), ("ii chr".toList, "2Chr"), ("代下".toList, "2Chr"), ("历代志下".toList, "2Chr"),
  ("歷代志下".toList, "2Chr"), ("ezra".toList, "Ezra"), ("拉".toList, "Ezra"), ("以斯拉记".toList, "Ezra"),
  ("以斯拉記".toList, "Ezra"), ("neh".toList, "Neh"), ("nehemiah".toList, "Neh"), ("尼".toList, "Neh"),
  ("尼希米记".toList, "Neh"), ("尼希米記".toList, "Neh"), ("esth".toList, "Esth"), ("esther".toList, "Esth"),
  ("斯".toList, "Esth"), ("以斯帖记".toList, "Esth"), ("以斯帖記".toList, "Esth"), ("job".toList, "Job"),
  ("伯".toList, "Job"), ("约伯记".toList, "Job"), ("約伯記".toList, "Job"), ("ps".toList, "Ps"),
  ("psalm".toList, "Ps"), ("psalms".toList, "Ps"), ("诗".toList, "Ps"), ("詩".toList, "Ps"),
  ("诗篇".toList, "Ps"), ("詩篇".toList, "Ps"), ("prov".toList, "Prov"), ("proverbs".toList, "Prov"),
  ("箴".toList, "Prov"), ("箴言".toList, "Prov"), ("eccl".toList, "Eccl"), ("ecclesiastes".toList, "Eccl"),
  ("传".toList, "Eccl"), ("傳".toList, "Eccl"), ("传道书".toList, "Eccl"), ("傳道書".toList, "Eccl"),
  ("song".toList, "Song"), ("song of songs".toList, "Song"), ("song of solomon".toList, "Song"), ("雅".toList, "Song"),
  ("雅歌".toList, "Song"), ("isa".toList, "Isa"), ("isaiah".toList, "Isa"), ("赛".toList, "Isa"),
  ("賽".toList, "Isa"), ("以赛亚书".toList, "Isa"), ("以賽亞書".toList, "Isa"), ("jer".toList, "Jer"),
  ("jeremiah".toList, "Jer"), ("耶".toList, "Jer"), ("耶利米书".toList, "Jer"), ("耶利米書".toList, "Jer"),
  ("lam".toList, "Lam"), ("lamentations".toList, "Lam"), ("哀".toList, "Lam"), ("耶利米哀歌".toList, "Lam"),
  ("ezek".toList, "Ezek"), ("ezekiel".toList, "Ezek"), ("结".toList, "Ezek"), ("結".toList, "Ezek"),
  ("以西结书".toList, "Ezek"), ("以西結書".toList, "Ezek"), ("dan".toList, "Dan"), ("daniel".toList, "Dan"),
  ("但".toList, "Dan"), ("但以理书".toList, "Dan"), ("但以理書".toList, "Dan"), ("hos".toList, "Hos"),
  ("hosea".toList, "Hos"), ("何".toList, "Hos"), ("何西阿书".toList, "Hos"), ("何西阿書".toList, "Hos"),
  ("joel".toList, "Joel"), ("珥".toList, "Joel"), ("约珥书".toList, "Joel"), ("約珥書".toList, "Joel"),
  ("amos".toList, "Amos"), ("摩".toList, "Amos"), ("阿摩司书".toList, "Amos"), ("阿摩司書".toList, "Amos"),
  ("obad".toList, "Obad"), ("obadiah".toList, "Obad"), ("俄".toList, "Obad"), ("俄巴底亚书".toList, "Obad"),
  ("俄巴底亞書".toList, "Obad"), ("jonah".toList, "Jonah"), ("拿".toList, "Jonah"), ("约拿书".toList, "Jonah"),
  ("約拿書".toList, "Jonah"), ("mic".toList, "Mic"), ("micah".toList, "Mic"), ("弥".toList, "Mic"),
  ("彌".toList, "Mic"), ("弥迦书".toList, "Mic"), ("彌迦書".toList, "Mic"), ("nah".toList, "Nah"),
  ("nahum".toList, "Nah"), ("鸿".toList, "Nah"), ("鴻".toList, "Nah"), ("那鸿书".toList, "Nah"),
  ("那鴻書".toList, "Nah"), ("hab".toList, "Hab")
]

/-- The alias table after the first 240 registrations. -/
def aliasStep5 : List (Str × String) := [
  ("gen".toList, "Gen"), ("genesis".toList, "Gen"), ("创".toList, "Gen"), ("創".toList, "Gen"),
  ("创世记".toList, "Gen"), ("創世記".toList, "Gen"), ("创世記".toList, "Gen"), ("ex".toList, "Exod"),
  ("exo".toList, "Exod"), ("exod".toList, "Exod"), ("exodus".toList, "Exod"), ("出".toList, "Exod"),
  ("出埃及记".toList, "Exod"), ("出埃及記".toList, "Exod"), ("lev".toList, "Lev"), ("leviticus".toList, "Lev"),
  ("利".toList, "Lev"), ("利未记".toList, "Lev"), ("利未記".toList, "Lev"), ("num".toList, "Num"),
  ("numbers".toList, "Num"), ("民".toList, "Num"), ("民数记".toList, "Num"), ("民數記".toList, "Num"),
  ("deut".toList, "Deut"), ("deuteronomy".toList, "Deut"), ("申".toList, "Deut"), ("申命记".toList, "Deut"),
  ("申命記".toList, "Deut"), ("josh".toList, "Josh"), ("joshua".toList, "Josh"), ("书".toList, "Josh"),
  ("書".toList, "Josh"), ("约书亚记".toList, "Josh"), ("約書亞記".toList, "Josh"), ("约书亚記".toList, "Josh"),
  ("judg".toList, "Judg"), ("judges".toList, "Judg"), ("士".toList, "Judg"), ("士师记".toList, "Judg"),
  ("士師記".toList, "Judg"), ("ruth".toList, "Ruth"), ("得".toList, "Ruth"), ("路得记".toList, "Ruth"),
  ("路得記".toList, "Ruth"), ("1 sam".toList, "1Sam"), ("1sam".toList, "1Sam"), ("i sam".toList, "1Sam"),
  ("1samuel".toList, "1Sam"), ("1 samuel".toList, "1Sam"), ("撒上".toList, "1Sam"), ("撒母耳记上".toList, "1Sam"),
  ("撒母耳記上".toList, "1Sam"), ("2 sam".toList, "2Sam"), ("2sam".toList, "2Sam"), ("ii sam".toList, "2Sam"),
  ("2samuel".toList, "2Sam"), ("2 samuel".toList, "2Sam"), ("撒下".toList, "2Sam"), ("撒母耳记下".toList, "2Sam"),
  ("撒母耳記下".toList, "2Sam"), ("1 kgs".toList, "1Kgs"), ("1kgs".toList, "1Kgs"), ("1 kings".toList, "1Kgs"),
  ("i kgs".toList, "1Kgs"), ("王上".toList, "1Kgs"), ("列王纪上".toList, "1Kgs"), ("列王紀上".toList, "1Kgs"),
  ("2 kgs".toList, "2Kgs"), ("2kgs".toList, "2Kgs"), ("2 kings".toList, "2Kgs"), ("ii kgs".toList, "2Kgs"),
  ("王下".toList, "2Kgs"), ("列王纪下".toList, "2Kgs"), ("列王紀下".toList, "2Kgs"), ("1 chr".toList, "1Chr"),
  ("1chr".toList, "1Chr"), ("1 chronicles".toList, "1Chr"), ("i chr".toList, "1Chr"), ("代上".toList, "1Chr"),
  ("历代志上".toList, "1Chr"), ("歷代志上".toList, "1Chr"), ("2 chr".toList, "2Chr"), ("2chr".toList, "2Chr"),
  ("2 chronicles".toList, "2Chr"), ("ii chr".toList, "2Chr"), ("代下".toList, "2Chr"), ("历代志下".toList, "2Chr"),
  ("歷代志下".toList, "2Chr"), ("ezra".toList, "Ezra"), ("拉".toList, "Ezra"), ("以斯拉记".toList, "Ezra"),
  ("以斯拉記".toList, "Ezra"), ("neh".toList, "Neh"), ("nehemiah".toList, "Neh"), ("尼".toList, "Neh"),
  ("尼希米记".toList, "Neh"), ("尼希米記".toList, "Neh"), ("esth".toList, "Esth"), ("esther".toList, "Esth"),
  ("斯".toList, "Esth"), ("以斯帖记".toList, "Esth"), ("以斯帖記".toList, "Esth"), ("job".toList, "Job"),
  ("伯".toList, "Job"), ("约伯记".toList, "Job"), ("約伯記".toList, "Job"), ("ps".toList, "Ps"),
  ("psalm".toList, "Ps"), ("psalms".toList, "Ps"), ("诗".toList, "Ps"), ("詩".toList, "Ps"),
  ("诗篇".toList, "Ps"), ("詩篇".toList, "Ps"), ("prov".toList, "Prov"), ("proverbs".toList, "Prov"),
  ("箴".toList, "Prov"), ("箴言".toList, "Prov"), ("eccl".toList, "Eccl"), ("ecclesiastes".toList, "Eccl"),
  ("传".toList, "Eccl"), ("傳".toList, "Eccl"), ("传道书".toList, "Eccl"), ("傳道書".toList, "Eccl"),
  ("song".toList, "Song"), ("song of songs".toList, "Song"), ("song of solomon".toList, "Song"), ("雅".toList, "Song"),
  ("雅歌".toList, "Song"), ("isa".toList, "Isa"), ("isaiah".toList, "Isa"), ("赛".toList, "Isa"),
  ("賽".toList, "Isa"), ("以赛亚书".toList, "Isa"), ("以賽亞書".toList, "Isa"), ("jer".toList, "Jer"),
  ("jeremiah".toList, "Jer"), ("耶".toList, "Jer"), ("耶利米书".toList, "Jer"), ("耶利米書".toList, "Jer"),
  ("lam".toList, "Lam"), ("lamentations".toList, "Lam"), ("哀".toList, "Lam"), ("耶利米哀歌".toList, "Lam"),
  ("ezek".toList, "Ezek"), ("ezekiel".toList, "Ezek"), ("结".toList, "Ezek"), ("結".toList, "Ezek"),
  ("以西结书".toList, "Ezek"), ("以西結書".toList, "Ezek"), ("dan".toList, "Dan"), ("daniel".toList, "Dan"),
  ("但".toList, "Dan"), ("但以理书".toList, "Dan"), ("但以理書".toList, "Dan"), ("hos".toList, "Hos"),
  ("hosea".toList, "Hos"), ("何".toList, "Hos"), ("何西阿书".toList, "Hos"), ("何西阿書".toList, "Hos"),
  ("joel".toList, "Joel"), ("珥".toList, "Joel"), ("约珥书".toList, "Joel"), ("約珥書".toList, "Joel"),
  ("amos".toList, "Amos"), ("摩".toList, "Amos"), ("阿摩司书".toList, "Amos"), ("阿摩司書".toList, "Amos"),
  ("obad".toList, "Obad"), ("obadiah".toList, "Obad"), ("俄".toList, "Obad"), ("俄巴底亚书".toList, "Obad"),
  ("俄巴底亞書".toList, "Obad"), ("jonah".toList, "Jonah"), ("拿".toList, "Jonah"), ("约拿书".toList, "Jonah"),
  ("約拿書".toList, "Jonah"), ("mic".toList, "Mic"), ("micah".toList, "Mic"), ("弥".toList, "Mic"),
  ("彌".toList, "Mic"), ("弥迦书".toList, "Mic"), ("彌迦書".toList, "Mic"), ("nah".toList, "Nah"),
  ("nahum".toList, "Nah"), ("鸿".toList, "Nah"), ("鴻".toList, "Nah"), ("那鸿书".toList, "Nah"),
  ("那鴻書".toList, "Nah"), ("hab".toList, "Hab"), ("habakkuk".toList, "Hab"), ("哈".toList, "Hab"),
  ("哈巴谷书".toList, "Hab"), ("哈巴谷書".toList, "Hab"), ("zeph".toList, "Zeph"), ("zephaniah".toList, "Zeph"),
  ("番".toList, "Zeph"), ("西番雅书".toList, "Zeph"), ("西番雅書".toList, "Zeph"), ("hag".toList, "Hag"),
  ("haggai".toList, "Hag"), ("该".toList, "Hag"), ("該".toList, "Hag"), ("哈该书".toList, "Hag"),
  ("哈該書".toList, "Hag"), ("zech".toList, "Zech"), ("zechariah".toList, "Zech"), ("亚".toList, "Zech"),
  ("亞".toList, "Zech"), ("撒迦利亚书".toList, "Zech"), ("撒迦利亞書".toList, "Zech"), ("mal".toList, "Mal"),
  ("malachi".toList, "Mal"), ("玛".toList, "Mal"), ("瑪".toList, "Mal"), ("玛拉基书".toList, "Mal"),
  ("瑪拉基書".toList, "Mal"), ("matt".toList, "Matt"), ("mt".toList, "Matt"), ("matthew".toList, "Matt"),
  ("太".toList, "Matt"), ("马太福音".toList, "Matt"), ("馬太福音".toList, "Matt"), ("mark".toList, "Mark"),
  ("mk".toList, "Mark"), ("可".toList, "Mark"), ("马可福音".toList, "Mark"), ("馬可福音".toList, "Mark"),
  ("luke".toList, "Luke"), ("lk".toList, "Luke"), ("路".toList, "Luke"), ("路加福音".toList, "Luke"),
  ("john".toList, "John"), ("jn".toList, "John"), ("约".toList, "John"), ("約".toList, "John"),
  ("约翰福音".toList, "John"), ("約翰福音".toList, "John")
]

/-- The alias table after the first 288 registrations. -/
def aliasStep6 : List (Str × String) := [
  ("gen".toList, "Gen"), ("genesis".toList, "Gen"), ("创".toList, "Gen"), ("創".toList, "Gen"),
  ("创世记".toList, "Gen"), ("創世記".toList, "Gen"), ("创世記".toList, "Gen"), ("ex".toList, "Exod"),
  ("exo".toList, "Exod"), ("exod".toList, "Exod"), ("exodus".toList, "Exod"), ("出".toList, "Exod"),
  ("出埃及记".toList, "Exod"), ("出埃及記".toList, "Exod"), ("lev".toList, "Lev"), ("leviticus".toList, "Lev"),
  ("利".toList, "Lev"), ("利未记".toList, "Lev"), ("利未記".toList, "Lev"), ("num".toList, "Num"),
  ("numbers".toList, "Num"), ("民".toList, "Num"), ("民数记".toList, "Num"), ("民數記".toList, "Num"),
  ("deut".toList, "Deut"), ("deuteronomy".toList, "Deut"), ("申".toList, "Deut"), ("申命记".toList, "Deut"),
  ("申命記".toList, "Deut"), ("josh".toList, "Josh"), ("joshua".toList, "Josh"), ("书".toList, "Josh"),
  ("書".toList, "Josh"), ("约书亚记".toList, "Josh"), ("約書亞記".toList, "Josh"), ("约书亚記".toList, "Josh"),
  ("judg".toList, "Judg"), ("judges".toList, "Judg"), ("士".toList, "Judg"), ("士师记".toList, "Judg"),
  ("士師記".toList, "Judg"), ("ruth".toList, "Ruth"), ("得".toList, "Ruth"), ("路得记".toList, "Ruth"),
  ("路得記".toList, "Ruth"), ("1 sam".toList, "1Sam"), ("1sam".toList, "1Sam"), ("i sam".toList, "1Sam"),
  ("1samuel".toList, "1Sam"), ("1 samuel".toList, "1Sam"), ("撒上".toList, "1Sam"), ("撒母耳记上".toList, "1Sam"),
  ("撒母耳記上".toList, "1Sam"), ("2 sam".toList, "2Sam"), ("2sam".toList, "2Sam"), ("ii sam".toList, "2Sam"),
  ("2samuel".toList, "2Sam"), ("2 samuel".toList, "2Sam"), ("撒下".toList, "2Sam"), ("撒母耳记下".toList, "2Sam"),
  ("撒母耳記下".toList, "2Sam"), ("1 kgs".toList, "1Kgs"), ("1kgs".toList, "1Kgs"), ("1 kings".toList, "1Kgs"),
  ("i kgs".toList, "1Kgs"), ("王上".toList, "1Kgs"), ("列王纪上".toList, "1Kgs"), ("列王紀上".toList, "1Kgs"),
  ("2 kgs".toList, "2Kgs"), ("2kgs".toList, "2Kgs"), ("2 kings".toList, "2Kgs"), ("ii kgs".toList, "2Kgs"),
  ("王下".toList, "2Kgs"), ("列王纪下".toList, "2Kgs"), ("列王紀下".toList, "2Kgs"), ("1 chr".toList, "1Chr"),
  ("1chr".toList, "1Chr"), ("1 chronicles".toList, "1Chr"), ("i chr".toList, "1Chr"), ("代上".toList, "1Chr"),
  ("历代志上".toList, "1Chr"), ("歷代志上".toList, "1Chr"), ("2 chr".toList, "2Chr"), ("2chr".toList, "2Chr"),
  ("2 chronicles".toList, "2Chr"), ("ii chr".toList, "2Chr"), ("代下".toList, "2Chr"), ("历代志下".toList, "2Chr"),
  ("歷代志下".toList, "2Chr"), ("ezra".toList, "Ezra"), ("拉".toList, "Ezra"), ("以斯拉记".toList, "Ezra"),
  ("以斯拉記".toList, "Ezra"), ("neh".toList, "Neh"), ("nehemiah".toList, "Neh"), ("尼".toList, "Neh"),
  ("尼希米记".toList, "Neh"), ("尼希米記".toList, "Neh"), ("esth".toList, "Esth"), ("esther".toList, "Esth"),
  ("斯".toList, "Esth"), ("以斯帖记".toList, "Esth"), ("以斯帖記".toList, "Esth"), ("job".toList, "Job"),
  ("伯".toList, "Job"), ("约伯记".toList, "Job"), ("約伯記".toList, "Job"), ("ps".toList, "Ps"),
  ("psalm".toList, "Ps"), ("psalms".toList, "Ps"), ("诗".toList, "Ps"), ("詩".toList, "Ps"),
  ("诗篇".toList, "Ps"), ("詩篇".toList, "Ps"), ("prov".toList, "Prov"), ("proverbs".toList, "Prov"),
  ("箴".toList, "Prov"), ("箴言".toList, "Prov"), ("eccl".toList, "Eccl"), ("ecclesiastes".toList, "Eccl"),
  ("传".toList, "Eccl"), ("傳".toList, "Eccl"), ("传道书".toList, "Eccl"), ("傳道書".toList, "Eccl"),
  ("song".toList, "Song"), ("song of songs".toList, "Song"), ("song of solomon".toList, "Song"), ("雅".toList, "Song"),
  ("雅歌".toList, "Song"), ("isa".toList, "Isa"), ("isaiah".toList, "Isa"), ("赛".toList, "Isa"),
  ("賽".toList, "Isa"), ("以赛亚书".toList, "Isa"), ("以賽亞書".toList, "Isa"), ("jer".toList, "Jer"),
  ("jeremiah".toList, "Jer"), ("耶".toList, "Jer"), ("耶利米书".toList, "Jer"), ("耶利米書".toList, "Jer"),
  ("lam".toList, "Lam"), ("lamentations".toList, "Lam"), ("哀".toList, "Lam"), ("耶利米哀歌".toList, "Lam"),
  ("ezek".toList, "Ezek"), ("ezekiel".toList, "Ezek"), ("结".toList, "Ezek"), ("結".toList, "Ezek"),
  ("以西结书".toList, "Ezek"), ("以西結書".toList, "Ezek"), ("dan".toList, "Dan"), ("daniel".toList, "Dan"),
  ("但".toList, "Dan"), ("但以理书".toList, "Dan"), ("但以理書".toList, "Dan"), ("hos".toList, "Hos"),
  ("hosea".toList, "Hos"), ("何".toList, "Hos"), ("何西阿书".toList, "Hos"), ("何西阿書".toList, "Hos"),
  ("joel".toList, "Joel"), ("珥".toList, "Joel"), ("约珥书".toList, "Joel"), ("約珥書".toList, "Joel"),
  ("amos".toList, "Amos"), ("摩".toList, "Amos"), ("阿摩司书".toList, "Amos"), ("阿摩司書".toList, "Amos"),
  ("obad".toList, "Obad"), ("obadiah".toList, "Obad"), ("俄".toList, "Obad"), ("俄巴底亚书".toList, "Obad"),
  ("俄巴底亞書".toList, "Obad"), ("jonah".toList, "Jonah"), ("拿".toList, "Jonah"), ("约拿书".toList, "Jonah"),
  ("約拿書".toList, "Jonah"), ("mic".toList, "Mic"), ("micah".toList, "Mic"), ("弥".toList, "Mic"),
  ("彌".toList, "Mic"), ("弥迦书".toList, "Mic"), ("彌迦書".toList, "Mic"), ("nah".toList, "Nah"),
  ("nahum".toList, "Nah"), ("鸿".toList, "Nah"), ("鴻".toList, "Nah"), ("那鸿书".toList, "Nah"),
  ("那鴻書".toList, "Nah"), ("hab".toList, "Hab"), ("habakkuk".toList, "Hab"), ("哈".toList, "Hab"),
  ("哈巴谷书".toList, "Hab"), ("哈巴谷書".toList, "Hab"), ("zeph".toList, "Zeph"), ("zephaniah".toList, "Zeph"),
  ("番".toList, "Zeph"), ("西番雅书".toList, "Zeph"), ("西番雅書".toList, "Zeph"), ("hag".toList, "Hag"),
  ("haggai".toList, "Hag"), ("该".toList, "Hag"), ("該".toList, "Hag"), ("哈该书".toList, "Hag"),
  ("哈該書".toList, "Hag"), ("zech".toList, "Zech"), ("zechariah".toList, "Zech"), ("亚".toList, "Zech"),
  ("亞".toList, "Zech"), ("撒迦利亚书".toList, "Zech"), ("撒迦利亞書".toList, "Zech"), ("mal".toList, "Mal"),
  ("malachi".toList, "Mal"), ("玛".toList, "Mal"), ("瑪".toList, "Mal"), ("玛拉基书".toList, "Mal"),
  ("瑪拉基書".toList, "Mal"), ("matt".toList, "Matt"), ("mt".toList, "Matt"), ("matthew".toList, "Matt"),
  ("太".toList, "Matt"), ("马太福音".toList, "Matt"), ("馬太福音".toList, "Matt"), ("mark".toList, "Mark"),
  ("mk".toList, "Mark"), ("可".toList, "Mark"), ("马可福音".toList, "Mark"), ("馬可福音".toList, "Mark"),
  ("luke".toList, "Luke"), ("lk".toList, "Luke"), ("路".toList, "Luke"), ("路加福音".toList, "Luke"),
  ("john".toList, "John"), ("jn".toList, "John"), ("约".toList, "John"), ("約".toList, "John"),
  ("约翰福音".toList, "John"), ("約翰福音".toList, "John"), ("acts".toList, "Acts"), ("act".toList, "Acts"),
  ("徒".toList, "Acts"), ("使徒行传".toList, "Acts"), ("使徒行傳".toList, "Acts"), ("rom".toList, "Rom"),
  ("romans".toList, "Rom"), ("罗".toList, "Rom"), ("羅".toList, "Rom"), ("罗马书".toList, "Rom"),
  ("羅馬書".toList, "Rom"), ("1 cor".toList, "1Cor"), ("1cor".toList, "1Cor"), ("i cor".toList, "1Cor"),
  ("1 corinthians".toList, "1Cor"), ("林前".toList, "1Cor"), ("哥林多前书".toList, "1Cor"), ("哥林多前書".toList, "1Cor"),
  ("2 cor".toList, "2Cor"), ("2cor".toList, "2Cor"), ("ii cor".toList, "2Cor"), ("2 corinthians".toList, "2Cor"),
  ("林后".toList, "2Cor"), ("林後".toList, "2Cor"), ("哥林多后书".toList, "2Cor"), ("哥林多後書".toList, "2Cor"),
  ("gal".toList, "Gal"), ("galatians".toList, "Gal"), ("加".toList, "Gal"), ("加拉太书".toList, "Gal"),
  ("加拉太書".toList, "Gal"), ("eph".toList, "Eph"), ("ephesians".toList, "Eph"), ("弗".toList, "Eph"),
  ("以弗所书".toList, "Eph"), ("以弗所書".toList, "Eph"), ("phil".toList, "Phil"), ("philippians".toList, "Phil"),
  ("腓".toList, "Phil"), ("腓立比书".toList, "Phil"), ("腓立比書".toList, "Phil"), ("col".toList, "Col"),
  ("colossians".toList, "Col"), ("西".toList, "Col"), ("歌罗西书".toList, "Col"), ("歌羅西書".toList, "Col"),
  ("1 thess".toList, "1Thess"), ("1thess".toList, "1Thess")
]

/-- The alias table after the first 336 registrations. -/
def aliasStep7 : List (Str × String) := [
  ("gen".toList, "Gen"), ("genesis".toList, "Gen"), ("创".toList, "Gen"), ("創".toList, "Gen"),
  ("创世记".toList, "Gen"), ("創世記".toList, "Gen"), ("创世記".toList, "Gen"), ("ex".toList, "Exod"),
  ("exo".toList, "Exod"), ("exod".toList, "Exod"), ("exodus".toList, "Exod"), ("出".toList, "Exod"),
  ("出埃及记".toList, "Exod"), ("出埃及記".toList, "Exod"), ("lev".toList, "Lev"), ("leviticus".toList, "Lev"),
  ("利".toList, "Lev"), ("利未记".toList, "Lev"), ("利未記".toList, "Lev"), ("num".toList, "Num"),
  ("numbers".toList, "Num"), ("民".toList, "Num"), ("民数记".toList, "Num"), ("民數記".toList, "Num"),
  ("deut".toList, "Deut"), ("deuteronomy".toList, "Deut"), ("申".toList, "Deut"), ("申命记".toList, "Deut"),
  ("申命記".toList, "Deut"), ("josh".toList, "Josh"), ("joshua".toList, "Josh"), ("书".toList, "Josh"),
  ("書".toList, "Josh"), ("约书亚记".toList, "Josh"), ("約書亞記".toList, "Josh"), ("约书亚記".toList, "Josh"),
  ("judg".toList, "Judg"), ("judges".toList, "Judg"), ("士".toList, "Judg"), ("士师记".toList, "Judg"),
  ("士師記".toList, "Judg"), ("ruth".toList, "Ruth"), ("得".toList, "Ruth"), ("路得记".toList, "Ruth"),
  ("路得記".toList, "Ruth"), ("1 sam".toList, "1Sam"), ("1sam".toList, "1Sam"), ("i sam".toList, "1Sam"),
  ("1samuel".toList, "1Sam"), ("1 samuel".toList, "1Sam"), ("撒上".toList, "1Sam"), ("撒母耳记上".toList, "1Sam"),
  ("撒母耳記上".toList, "1Sam"), ("2 sam".toList, "2Sam"), ("2sam".toList, "2Sam"), ("ii sam".toList, "2Sam"),
  ("2samuel".toList, "2Sam"), ("2 samuel".toList, "2Sam"), ("撒下".toList, "2Sam"), ("撒母耳记下".toList, "2Sam"),
  ("撒母耳記下".toList, "2Sam"), ("1 kgs".toList, "1Kgs"), ("1kgs".toList, "1Kgs"), ("1 kings".toList, "1Kgs"),
  ("i kgs".toList, "1Kgs"), ("王上".toList, "1Kgs"), ("列王纪上".toList, "1Kgs"), ("列王紀上".toList, "1Kgs"),
  ("2 kgs".toList, "2Kgs"), ("2kgs".toList, "2Kgs"), ("2 kings".toList, "2Kgs"), ("ii kgs".toList, "2Kgs"),
  ("王下".toList, "2Kgs"), ("列王纪下".toList, "2Kgs"), ("列王紀下".toList, "2Kgs"), ("1 chr".toList, "1Chr"),
  ("1chr".toList, "1Chr"), ("1 chronicles".toList, "1Chr"), ("i chr".toList, "1Chr"), ("代上".toList, "1Chr"),
  ("历代志上".toList, "1Chr"), ("歷代志上".toList, "1Chr"), ("2 chr".toList, "2Chr"), ("2chr".toList, "2Chr"),
  ("2 chronicles".toList, "2Chr"), ("ii chr".toList, "2Chr"), ("代下".toList, "2Chr"), ("历代志下".toList, "2Chr"),
  ("歷代志下".toList, "2Chr"), ("ezra".toList, "Ezra"), ("拉".toList, "Ezra"), ("以斯拉记".toList, "Ezra"),
  ("以斯拉記".toList, "Ezra"), ("neh".toList, "Neh"), ("nehemiah".toList, "Neh"), ("尼".toList, "Neh"),
  ("尼希米记".toList, "Neh"), ("尼希米記".toList, "Neh"), ("esth".toList, "Esth"), ("esther".toList, "Esth"),
  ("斯".toList, "Esth"), ("以斯帖记".toList, "Esth"), ("以斯帖記".toList, "Esth"), ("job".toList, "Job"),
  ("伯".toList, "Job"), ("约伯记".toList, "Job"), ("約伯記".toList, "Job"), ("ps".toList, "Ps"),
  ("psalm".toList, "Ps"), ("psalms".toList, "Ps"), ("诗".toList, "Ps"), ("詩".toList, "Ps"),
  ("诗篇".toList, "Ps"), ("詩篇".toList, "Ps"), ("prov".toList, "Prov"), ("proverbs".toList, "Prov"),
  ("箴".toList, "Prov"), ("箴言".toList, "Prov"), ("eccl".toList, "Eccl"), ("ecclesiastes".toList, "Eccl"),
  ("传".toList, "Eccl"), ("傳".toList, "Eccl"), ("传道书".toList, "Eccl"), ("傳道書".toList, "Eccl"),
  ("song".toList, "Song"), ("song of songs".toList, "Song"), ("song of solomon".toList, "Song"), ("雅".toList, "Song"),
  ("雅歌".toList, "Song"), ("isa".toList, "Isa"), ("isaiah".toList, "Isa"), ("赛".toList, "Isa"),
  ("賽".toList, "Isa"), ("以赛亚书".toList, "Isa"), ("以賽亞書".toList, "Isa"), ("jer".toList, "Jer"),
  ("jeremiah".toList, "Jer"), ("耶".toList, "Jer"), ("耶利米书".toList, "Jer"), ("耶利米書".toList, "Jer"),
  ("lam".toList, "Lam"), ("lamentations".toList, "Lam"), ("哀".toList, "Lam"), ("耶利米哀歌".toList, "Lam"),
  ("ezek".toList, "Ezek"), ("ezekiel".toList, "Ezek"), ("结".toList, "Ezek"), ("結".toList, "Ezek"),
  ("以西结书".toList, "Ezek"), ("以西結書".toList, "Ezek"), ("dan".toList, "Dan"), ("daniel".toList, "Dan"),
  ("但".toList, "Dan"), ("但以理书".toList, "Dan"), ("但以理書".toList, "Dan"), ("hos".toList, "Hos"),
  ("hosea".toList, "Hos"), ("何".toList, "Hos"), ("何西阿书".toList, "Hos"), ("何西阿書".toList, "Hos"),
  ("joel".toList, "Joel"), ("珥".toList, "Joel"), ("约珥书".toList, "Joel"), ("約珥書".toList, "Joel"),
  ("amos".toList, "Amos"), ("摩".toList, "Amos"), ("阿摩司书".toList, "Amos"), ("阿摩司書".toList, "Amos"),
  ("obad".toList, "Obad"), ("obadiah".toList, "Obad"), ("俄".toList, "Obad"), ("俄巴底亚书".toList, "Obad"),
  ("俄巴底亞書".toList, "Obad"), ("jonah".toList, "Jonah"), ("拿".toList, "Jonah"), ("约拿书".toList, "Jonah"),
  ("約拿書".toList, "Jonah"), ("mic".toList, "Mic"), ("micah".toList, "Mic"), ("弥".toList, "Mic"),
  ("彌".toList, "Mic"), ("弥迦书".toList, "Mic"), ("彌迦書".toList, "Mic"), ("nah".toList, "Nah"),
  ("nahum".toList, "Nah"), ("鸿".toList, "Nah"), ("鴻".toList, "Nah"), ("那鸿书".toList, "Nah"),
  ("那鴻書".toList, "Nah"), ("hab".toList, "Hab"), ("habakkuk".toList, "Hab"), ("哈".toList, "Hab"),
  ("哈巴谷书".toList, "Hab"), ("哈巴谷書".toList, "Hab"), ("zeph".toList, "Zeph"), ("zephaniah".toList, "Zeph"),
  ("番".toList, "Zeph"), ("西番雅书".toList, "Zeph"), ("西番雅書".toList, "Zeph"), ("hag".toList, "Hag"),
  ("haggai".toList, "Hag"), ("该".toList, "Hag"), ("該".toList, "Hag"), ("哈该书".toList, "Hag"),
  ("哈該書".toList, "Hag"), ("zech".toList, "Zech"), ("zechariah".toList, "Zech"), ("亚".toList, "Zech"),
  ("亞".toList, "Zech"), ("撒迦利亚书".toList, "Zech"), ("撒迦利亞書".toList, "Zech"), ("mal".toList, "Mal"),
  ("malachi".toList, "Mal"), ("玛".toList, "Mal"), ("瑪".toList, "Mal"), ("玛拉基书".toList, "Mal"),
  ("瑪拉基書".toList, "Mal"), ("matt".toList, "Matt"), ("mt".toList, "Matt"), ("matthew".toList, "Matt"),
  ("太".toList, "Matt"), ("马太福音".toList, "Matt"), ("馬太福音".toList, "Matt"), ("mark".toList, "Mark"),
  ("mk".toList, "Mark"), ("可".toList, "Mark"), ("马可福音".toList, "Mark"), ("馬可福音".toList, "Mark"),
  ("luke".toList, "Luke"), ("lk".toList, "Luke"), ("路".toList, "Luke"), ("路加福音".toList, "Luke"),
  ("john".toList, "John"), ("jn".toList, "John"), ("约".toList, "John"), ("約".toList, "John"),
  ("约翰福音".toList, "John"), ("約翰福音".toList, "John"), ("acts".toList, "Acts"), ("act".toList, "Acts"),
  ("徒".toList, "Acts"), ("使徒行传".toList, "Acts"), ("使徒行傳".toList, "Acts"), ("rom".toList, "Rom"),
  ("romans".toList, "Rom"), ("罗".toList, "Rom"), ("羅".toList, "Rom"), ("罗马书".toList, "Rom"),
  ("羅馬書".toList, "Rom"), ("1 cor".toList, "1Cor"), ("1cor".toList, "1Cor"), ("i cor".toList, "1Cor"),
  ("1 corinthians".toList, "1Cor"), ("林前".toList, "1Cor"), ("哥林多前书".toList, "1Cor"), ("哥林多前書".toList, "1Cor"),
  ("2 cor".toList, "2Cor"), ("2cor".toList, "2Cor"), ("ii cor".toList, "2Cor"), ("2 corinthians".toList, "2Cor"),
  ("林后".toList, "2Cor"), ("林後".toList, "2Cor"), ("哥林多后书".toList, "2Cor"), ("哥林多後書".toList, "2Cor"),
  ("gal".toList, "Gal"), ("galatians".toList, "Gal"), ("加".toList, "Gal"), ("加拉太书".toList, "Gal"),
  ("加拉太書".toList, "Gal"), ("eph".toList, "Eph"), ("ephesians".toList, "Eph"), ("弗".toList, "Eph"),
  ("以弗所书".toList, "Eph"), ("以弗所書".toList, "Eph"), ("phil".toList, "Phil"), ("philippians".toList, "Phil"),
  ("腓".toList, "Phil"), ("腓立比书".toList, "Phil"), ("腓立比書".toList, "Phil"), ("col".toList, "Col"),
  ("colossians".toList, "Col"), ("西".toList, "Col"), ("歌罗西书".toList, "Col"), ("歌羅西書".toList, "Col"),
  ("1 thess".toList, "1Thess"), ("1thess".toList, "1Thess"), ("i thess".toList, "1Thess"), ("帖前".toList, "1Thess"),
  ("帖撒罗尼迦前书".toList, "1Thess"), ("帖撒羅尼迦前書".toList, "1Thess"), ("2 thess".toList, "2Thess"), ("2thess".toList, "2Thess"),
  ("ii thess".toList, "2Thess"), ("帖后".toList, "2Thess"), ("帖後".toList, "2Thess"), ("帖撒罗尼迦后书".toList, "2Thess"),
  ("帖撒羅尼迦後書".toList, "2Thess"), ("1 tim".toList, "1Tim"), ("1tim".toList, "1Tim"), ("i tim".toList, "1Tim"),
  ("提前".toList, "1Tim"), ("提摩太前书".toList, "1Tim"), ("提摩太前書".toList, "1Tim"), ("2 tim".toList, "2Tim"),
  ("2tim".toList, "2Tim"), ("ii tim".toList, "2Tim"), ("提后".toList, "2Tim"), ("提後".toList, "2Tim"),
  ("提摩太后书".toList, "2Tim"), ("提摩太後書".toList, "2Tim"), ("titus".toList, "Titus"), ("多".toList, "Titus"),
  ("提多书".toList, "Titus"), ("提多書".toList, "Titus"), ("phlm".toList, "Phlm"), ("philemon".toList, "Phlm"),
  ("门".toList, "Phlm"), ("門".toList, "Phlm"), ("腓利门书".toList, "Phlm"), ("腓利門書".toList, "Phlm"),
  ("heb".toList, "Heb"), ("hebrews".toList, "Heb"), ("来".toList, "Heb"), ("來".toList, "Heb"),
  ("希伯来书".toList, "Heb"), ("希伯來書".toList, "Heb"), ("jas".toList, "Jas"), ("james".toList, "Jas"),
  ("雅各书".toList, "Jas"), ("雅各書".toList, "Jas"), ("1 pet".toList, "1Pet"), ("1pet".toList, "1Pet"),
  ("i pet".toList, "1Pet"), ("彼前".toList, "1Pet")
]

theorem length_dropWhile_le (p : Char → Bool) (s : Str) :
    (s.dropWhile p).length ≤ s.length := by
  induction s with
  | nil => simp [List.dropWhile]
  | cons c cs ih =>
    simp only [List.dropWhile]
    split
    · exact Nat.le_trans ih (Nat.le_succ _)
    · exact Nat.le_refl _

theorem length_takeWhile_le (p : Char → Bool) (s : Str) :
    (s.takeWhile p).length ≤ s.length := by
  induction s with
  | nil => simp [List.takeWhile]
  | cons c cs ih =>
    simp only [List.takeWhile]
    split
    · exact Nat.succ_le_succ ih
    · exact Nat.zero_le _

theorem firstSome_eq_some {α β : Type} {f : α → Option β} {l : List α} {b : β}
    (h : firstSome f l = some b) : ∃ a ∈ l, f a = some b := by
  induction l with
  | nil => simp [firstSome] at h
  | cons a as ih =>
    rw [firstSome] at h
    cases hf : f a with
    | some b2 =>
      rw [hf] at h
      refine ⟨a, List.mem_cons_self a as, ?_⟩
      rw [hf]
      exact h
    | none =>
      rw [hf] at h
      obtain ⟨x, hx, hfx⟩ := ih h
      exact ⟨x, List.mem_cons_of_mem a hx, hfx⟩

theorem matchTokenCI_length {t s r : Str} (h : matchTokenCI t s = some r) :
    r.length ≤ s.length := by
  induction t generalizing s with
  | nil =>
    rw [matchTokenCI] at h
    cases h
    exact Nat.le_refl _
  | cons c cs ih =>
    cases s with
    | nil => simp [matchTokenCI] at h
    | cons x xs =>
      rw [matchTokenCI] at h
      split at h
      · exact Nat.le_trans (ih h) (Nat.le_succ _)
      · cases h

theorem digitSplits_length {s : Str} {d r : Str} (h : (d, r) ∈ digitSplits s) :
    r.length < s.length := by
  have htw := length_takeWhile_le isDigitChar s
  simp only [digitSplits, List.mem_map, List.mem_range] at h
  obtain ⟨i, hi, heq⟩ := h
  have hr : r = s.drop (min 3 (s.takeWhile isDigitChar).length - i) := by
    have := congrArg Prod.snd heq
    simpa using this.symm
  subst hr
  rw [List.length_drop]
  omega

theorem matchOptChar_length (x : Char) (s : Str) :
    (matchOptChar x s).length ≤ s.length := by
  rw [matchOptChar]
  split
  · exact Nat.le_refl _
  next c r heq =>
    split
    · have hd := length_dropWhile_le isSpaceChar s
      rw [heq] at hd
      simp only [List.length_cons] at hd
      omega
    · exact Nat.le_refl _

theorem matchDashV2_length {s d r : Str} (h : matchDashV2 s = some (d, r)) :
    r.length ≤ s.length := by
  rw [matchDashV2] at h
  split at h
  · cases h
  next c r2 heq =>
    split at h
    · have h1 := digitSplits_length (List.mem_of_mem_head? h)
      have h2 := length_dropWhile_le isSpaceChar r2
      have hd := length_dropWhile_le isSpaceChar s
      rw [heq] at hd
      simp only [List.length_cons] at hd
      omega
    · cases h

theorem matchRefAt_in_length {toks : List Str} {s : Str} {caps : RefCaps}
    (h : matchRefAt_in toks s = some caps) : caps.rest.length < s.length := by
  obtain ⟨tok, _, hf⟩ := firstSome_eq_some h
  cases h1 : matchTokenCI tok s with
  | none => rw [h1] at hf; cases hf
  | some r1 =>
    rw [h1] at hf
    have hr1 : r1.length ≤ s.length := matchTokenCI_length h1
    have hd1 := length_dropWhile_le isSpaceChar r1
    obtain ⟨cp, hcp, hg⟩ := firstSome_eq_some hf
    obtain ⟨cd, cr⟩ := cp
    have hcr := digitSplits_length hcp
    simp only at hg
    split at hg
    · cases hg
    next c r5 heq5 =>
      have hd5 := length_dropWhile_le isSpaceChar cr
      rw [heq5] at hd5
      simp only [List.length_cons] at hd5
      split at hg
      · obtain ⟨vp, hvp, hg2⟩ := firstSome_eq_some hg
        obtain ⟨vd, vr⟩ := vp
        have hvr := digitSplits_length hvp
        have hd6 := length_dropWhile_le isSpaceChar r5
        simp only at hg2
        cases h3 : matchDashV2 vr with
        | some p =>
          obtain ⟨v2d, r8⟩ := p
          rw [h3] at hg2
          cases hg2
          have h8 : r8.length ≤ vr.length := matchDashV2_length h3
          have h9 := matchOptChar_length '节' r8
          simp only
          omega
        | none =>
          rw [h3] at hg2
          cases hg2
          have h9 := matchOptChar_length '节' vr
          simp only
          omega
      · cases hg

theorem matchChapAt_in_length {toks : List Str} {s : Str} {caps : ChapCaps}
    (h : matchChapAt_in toks s = some caps) : caps.rest.length < s.length := by
  obtain ⟨tok, _, hf⟩ := firstSome_eq_some h
  cases h1 : matchTokenCI tok s with
  | none => rw [h1] at hf; cases hf
  | some r1 =>
    rw [h1] at hf
    simp only at hf
    have hr1 : r1.length ≤ s.length := matchTokenCI_length h1
    have hd1 := length_dropWhile_le isSpaceChar r1
    cases h2 : (digitSplits (r1.dropWhile isSpaceChar)).head? with
    | none => rw [h2] at hf; cases hf
    | some p =>
      obtain ⟨cd, cr⟩ := p
      rw [h2] at hf
      cases hf
      have hcr := digitSplits_length (List.mem_of_mem_head? h2)
      have h9 := matchOptChar_length '章' cr
      simp only
      omega

theorem refFindAux_start_le (f : Str → Option RefCaps) (fuel : Nat) :
    ∀ (pos : Nat) (s : Str) (m : RefM), m ∈ refFindAux f fuel pos s → pos ≤ m.start := by
  induction fuel with
  | zero => intro pos s m hm; rw [refFindAux] at hm; cases hm
  | succ n ih =>
    intro pos s m hm
    rw [refFindAux, refFindStep.eq_def] at hm
    cases hma : f s with
    | none =>
      rw [hma] at hm
      cases s with
      | nil => simp only at hm; cases hm
      | cons c srest =>
        simp only at hm
        exact Nat.le_trans (Nat.le_succ pos) (ih (pos + 1) srest m hm)
    | some caps =>
      rw [hma] at hm
      simp only [List.mem_cons] at hm
      cases hm with
      | inl he => rw [he]
      | inr ht =>
        have := ih _ _ m ht
        omega

theorem refFindAux_pairwise (f : Str → Option RefCaps)
    (hf : ∀ s caps, f s = some caps → caps.rest.length < s.length) (fuel : Nat) :
    ∀ (pos : Nat) (s : Str),
      (refFindAux f fuel pos s).Pairwise (fun a b => a.start < b.start) := by
  induction fuel with
  | zero => intro pos s; rw [refFindAux]; exact List.Pairwise.nil
  | succ n ih =>
    intro pos s
    rw [refFindAux, refFindStep.eq_def]
    cases hma : f s with
    | none =>
      cases s with
      | nil => exact List.Pairwise.nil
      | cons c srest => exact ih (pos + 1) srest
    | some caps =>
      have hk : caps.rest.length < s.length := hf s caps hma
      refine List.Pairwise.cons ?_ (ih _ _)
      intro m hm
      have hs := refFindAux_start_le f n _ _ m hm
      simp only
      omega

theorem chapFindAux_start_le (f : Str → Option ChapCaps) (fuel : Nat) :
    ∀ (pos : Nat) (s : Str) (m : ChapM), m ∈ chapFindAux f fuel pos s → pos ≤ m.start := by
  induction fuel with
  | zero => intro pos s m hm; rw [chapFindAux] at hm; cases hm
  | succ n ih =>
    intro pos s m hm
    rw [chapFindAux, chapFindStep.eq_def] at hm
    cases hma : f s with
    | none =>
      rw [hma] at hm
      cases s with
      | nil => simp only at hm; cases hm
      | cons c srest =>
        simp only at hm
        exact Nat.le_trans (Nat.le_succ pos) (ih (pos + 1) srest m hm)
    | some caps =>
      rw [hma] at hm
      simp only [List.mem_cons] at hm
      cases hm with
      | inl he => rw [he]
      | inr ht =>
        have := ih _ _ m ht
        omega

theorem chapFindAux_pairwise (f : Str → Option ChapCaps)
    (hf : ∀ s caps, f s = some caps → caps.rest.length < s.length) (fuel : Nat) :
    ∀ (pos : Nat) (s : Str),
      (chapFindAux f fuel pos s).Pairwise (fun a b => a.start < b.start) := by
  induction fuel with
  | zero => intro pos s; rw [chapFindAux]; exact List.Pairwise.nil
  | succ n ih =>
    intro pos s
    rw [chapFindAux, chapFindStep.eq_def]
    cases hma : f s with
    | none =>
      cases s with
      | nil => exact List.Pairwise.nil
      | cons c srest => exact ih (pos + 1) srest
    | some caps =>
      have hk : caps.rest.length < s.length := hf s caps hma
      refine List.Pairwise.cons ?_ (ih _ _)
      intro m hm
      have hs := chapFindAux_start_le f n _ _ m hm
      simp only
      omega

theorem refMention_in_span (tbl : List (Str × String)) (m : RefM) :
    (refMention_in tbl m).span = (m.start, m.stop) := by
  rw [refMention_in]
  split
  · rfl
  · rfl

theorem refMention_in_status (tbl : List (Str × String)) (m : RefM) :
    (refMention_in tbl m).parse_status = "ok" ∨
    (refMention_in tbl m).parse_status = "unparsed" := by
  rw [refMention_in]
  split
  · exact Or.inl rfl
  · exact Or.inr rfl

theorem pairwise_filterMap_of_pairwise {α β : Type} {R : α → α → Prop} {S : β → β → Prop}
    {f : α → Option β} {l : List α}
    (hc : ∀ a b x y, f a = some x → f b = some y → R a b → S x y)
    (h : l.Pairwise R) : (l.filterMap f).Pairwise S := by
  induction l with
  | nil => simp
  | cons a as ih =>
    rw [List.pairwise_cons] at h
    cases hf : f a with
    | none => rw [List.filterMap_cons_none hf]; exact ih h.2
    | some x =>
      rw [List.filterMap_cons_some hf]
      refine List.Pairwise.cons ?_ (ih h.2)
      intro y hy
      obtain ⟨b, hb, hfb⟩ := List.mem_filterMap.mp hy
      exact hc a b x y hf hfb (h.1 b hb)

theorem insertByLenDesc_perm (x : Str) (l : List Str) :
    (insertByLenDesc x l).Perm (x :: l) := by
  induction l with
  | nil => exact List.Perm.refl _
  | cons y ys ih =>
    rw [insertByLenDesc]
    split
    · exact List.Perm.refl _
    · exact List.Perm.trans (List.Perm.cons y ih) (List.Perm.swap x y ys)

theorem sortByLenDesc_perm (l : List Str) : (sortByLenDesc l).Perm l := by
  induction l with
  | nil => exact List.Perm.refl _
  | cons x xs ih =>
    exact List.Perm.trans (insertByLenDesc_perm x (sortByLenDesc xs)) (List.Perm.cons x ih)

theorem pass2Filter_in_eq_some {tbl : List (Str × String)} {spans : List (Nat × Nat)}
    {m : ChapM} {mm : Mention} :
    pass2Filter_in tbl spans m = some mm ↔
      ((m.raw.contains ':' || m.raw.contains '：') = false ∧
       overlaps_any (m.start, m.stop) spans = false ∧
       chap_in_range (normalize_book_in tbl m.bookCap) (some (digitsToNat m.chapCap)) = true ∧
       mm = chapMention_in tbl m) := by
  rw [pass2Filter_in]
  cases hcol : (m.raw.contains ':' || m.raw.contains '：') with
  | true => simp [hcol]
  | false =>
    cases hov : overlaps_any (m.start, m.stop) spans with
    | true => simp [hcol, hov]
    | false =>
      cases hin : chap_in_range (normalize_book_in tbl m.bookCap)
          (some (digitsToNat m.chapCap)) with
      | true => simp [hcol, hov, hin, eq_comm]
      | false => simp [hcol, hov, hin]

theorem chapMention_in_status (tbl : List (Str × String)) (m : ChapM) :
    (chapMention_in tbl m).parse_status = "chapter_only" :=
  rfl

theorem pass1_in_not_chapter_only (tbl : List (Str × String)) (toks : List Str)
    (text : Str) (mm : Mention) (h : mm ∈ pass1_mentions_in tbl toks text) :
    mm.parse_status ≠ "chapter_only" := by
  obtain ⟨r, _, hr⟩ := List.mem_map.mp h
  intro hc
  rw [← hr] at hc
  cases refMention_in_status tbl r with
  | inl ho => rw [ho] at hc; exact absurd hc (by decide)
  | inr hu => rw [hu] at hc; exact absurd hc (by decide)

theorem mem_keys_dictInsert {d : List (Str × String)} {k v : _} {x : Str}
    (h : x ∈ (dictInsert d k v).map (fun p => p.1)) :
    x ∈ d.map (fun p => p.1) ∨ x = k := by
  induction d with
  | nil =>
    rw [dictInsert] at h
    simp at h
    exact Or.inr h
  | cons p ps ih =>
    rw [dictInsert] at h
    split at h
    · simp only [List.map_cons, List.mem_cons] at h ⊢
      cases h with
      | inl he => exact Or.inr he
      | inr ht => exact Or.inl (Or.inr ht)
    · simp only [List.map_cons, List.mem_cons] at h ⊢
      cases h with
      | inl he => exact Or.inl (Or.inl he)
      | inr ht =>
        cases ih ht with
        | inl hl => exact Or.inl (Or.inr hl)
        | inr hr => exact Or.inr hr

theorem dictInsert_keys_nodup {d : List (Str × String)} (k : Str) (v : String)
    (h : (d.map (fun p => p.1)).Nodup) :
    ((dictInsert d k v).map (fun p => p.1)).Nodup := by
  induction d with
  | nil =>
    rw [dictInsert]
    simp
  | cons p ps ih =>
    rw [dictInsert]
    simp only [List.map_cons, List.nodup_cons] at h
    split
    next heq =>
      simp only [List.map_cons, List.nodup_cons]
      rw [← heq]
      exact h
    next hne =>
      simp only [List.map_cons, List.nodup_cons]
      refine ⟨?_, ih h.2⟩
      intro hmem
      cases mem_keys_dictInsert hmem with
      | inl hl => exact h.1 hl
      | inr hr => exact hne hr

theorem buildAliases_keys_nodup (regs : List (String × String)) :
    ((buildAliases regs).map (fun p => p.1)).Nodup := by
  rw [buildAliases]
  have h : ∀ (d : List (Str × String)), (d.map (fun p => p.1)).Nodup →
      ((regs.foldl (fun d r => dictInsert d (r.1.toList.map Char.toLower) r.2) d).map
        (fun p => p.1)).Nodup := by
    induction regs with
    | nil => intro d hd; exact hd
    | cons r rs ih =>
      intro d hd
      rw [List.foldl_cons]
      exact ih _ (dictInsert_keys_nodup _ _ hd)
  exact h [] (by simp)

theorem foldAliases_append (d : List (Str × String)) (l1 l2 : List (String × String)) :
    foldAliases d (l1 ++ l2) = foldAliases (foldAliases d l1) l2 :=
  List.foldl_append _ d l1 l2

theorem registrations_chunked :
    registrations = regsChunk1 ++ (regsChunk2 ++ (regsChunk3 ++ (regsChunk4 ++
      (regsChunk5 ++ (regsChunk6 ++ (regsChunk7 ++ regsChunk8)))))) :=
  rfl

theorem aliasStep1_eval : foldAliases [] regsChunk1 = aliasStep1 :=
  rfl

theorem aliasStep2_eval : foldAliases aliasStep1 regsChunk2 = aliasStep2 :=
  rfl

theorem aliasStep3_eval : foldAliases aliasStep2 regsChunk3 = aliasStep3 :=
  rfl

theorem aliasStep4_eval : foldAliases aliasStep3 regsChunk4 = aliasStep4 :=
  rfl

theorem aliasStep5_eval : foldAliases aliasStep4 regsChunk5 = aliasStep5 :=
  rfl

theorem aliasStep6_eval : foldAliases aliasStep5 regsChunk6 = aliasStep6 :=
  rfl

theorem aliasStep7_eval : foldAliases aliasStep6 regsChunk7 = aliasStep7 :=
  rfl

theorem aliasStep8_eval : foldAliases aliasStep7 regsChunk8 = aliasTableLit :=
  rfl

theorem BOOK_ALIASES_eval : BOOK_ALIASES = aliasTableLit := by
  have h0 : BOOK_ALIASES = foldAliases [] registrations := rfl
  rw [h0, registrations_chunked, foldAliases_append, aliasStep1_eval,
    foldAliases_append, aliasStep2_eval, foldAliases_append, aliasStep3_eval,
    foldAliases_append, aliasStep4_eval, foldAliases_append, aliasStep5_eval,
    foldAliases_append, aliasStep6_eval, foldAliases_append, aliasStep7_eval,
    aliasStep8_eval]

theorem BOOK_TOKENS_eval : _BOOK_TOKENS = bookTokensLit := by
  have h : _BOOK_TOKENS = sortByLenDesc (BOOK_ALIASES.map (fun p => p.1)) := rfl
  rw [h, BOOK_ALIASES_eval]
  rfl

theorem lenDescChainB_pairwise :
    ∀ (l : List Str), lenDescChainB l = true →
      l.Pairwise (fun a b => b.length ≤ a.length)
  | [], _ => List.Pairwise.nil
  | [x], _ => List.pairwise_singleton _ x
  | x :: y :: r, h => by
    rw [lenDescChainB] at h
    rw [Bool.and_eq_true] at h
    have hyx : y.length ≤ x.length := of_decide_eq_true h.1
    have ht := lenDescChainB_pairwise (y :: r) h.2
    refine List.Pairwise.cons ?_ ht
    intro z hz
    cases List.mem_cons.mp hz with
    | inl he => rw [he]; exact hyx
    | inr hr =>
      have := (List.pairwise_cons.mp ht).1 z hr
      omega

theorem extract_mentions_lit (text : Str) (kco : Bool) :
    extract_mentions text kco = extract_mentions_in aliasTableLit bookTokensLit text kco := by
  rw [extract_mentions, BOOK_ALIASES_eval, BOOK_TOKENS_eval]

theorem pass1_mentions_lit (text : Str) :
    pass1_mentions text = pass1_mentions_in aliasTableLit bookTokensLit text := by
  rw [pass1_mentions, BOOK_ALIASES_eval, BOOK_TOKENS_eval]

theorem pass2_mentions_lit (text : Str) :
    pass2_mentions text = pass2_mentions_in aliasTableLit bookTokensLit text := by
  rw [pass2_mentions, BOOK_ALIASES_eval, BOOK_TOKENS_eval]

theorem refFinditer_lit (text : Str) :
    refFinditer text = refFinditer_in bookTokensLit text := by
  rw [refFinditer, BOOK_TOKENS_eval]

theorem chapFinditer_lit (text : Str) :
    chapFinditer text = chapFinditer_in bookTokensLit text := by
  rw [chapFinditer, BOOK_TOKENS_eval]

theorem okSpans_lit (text : Str) :
    okSpans text = okSpans_in aliasTableLit bookTokensLit text := by
  rw [okSpans, BOOK_ALIASES_eval, BOOK_TOKENS_eval]

theorem normalize_book_lit (token : Str) :
    normalize_book token = normalize_book_in aliasTableLit token := by
  rw [normalize_book, BOOK_ALIASES_eval]

theorem refOk_lit (m : RefM) : refOk m = refOk_in aliasTableLit m := by
  rw [refOk, BOOK_ALIASES_eval]

theorem chapMention_lit (m : ChapM) : chapMention m = chapMention_in aliasTableLit m := by
  rw [chapMention, BOOK_ALIASES_eval]

/-- C1: counterexample — the out-of-range pass-1 match "rom 193:1" is emitted
as a parse_status=unparsed mention whose book_osis and chapter fields are
null, not the retained book and chapter the claim promises. -/
theorem C1_counterexample :
    extract_mentions ("rom 193:1".toList) true =
      [⟨"rom 193:1".toList, none, none, none, none, "unparsed", (0, 9)⟩] ∧
    ¬ ((extract_mentions ("rom 193:1".toList) true).map Mention.book_osis = [some "Rom"]) ∧
    ¬ ((extract_mentions ("rom 193:1".toList) true).map Mention.chapter = [some 193]) := by
  simp only [extract_mentions_lit]
  refine ⟨rfl, by decide, by decide⟩

/-- C1 (amended): every pass-1 match that fails the bounds check is emitted —
never dropped, and extraction is a total function so no error is possible —
as a parse_status=unparsed mention that retains the raw matched text and
span but has book, chapter and both verse fields set to null. -/
theorem C1_unparsed_policy (text : Str) (kco : Bool) (m : RefM)
    (hm : m ∈ refFinditer text) (hbad : refOk m = false) :
    refMention m = ⟨m.raw, none, none, none, none, "unparsed", (m.start, m.stop)⟩ ∧
    refMention m ∈ extract_mentions text kco := by
  have hbad2 : chap_in_range (normalize_book_in BOOK_ALIASES m.bookCap)
      (some (digitsToNat m.chapCap)) = false := hbad
  have hval : refMention m = ⟨m.raw, none, none, none, none, "unparsed", (m.start, m.stop)⟩ := by
    show refMention_in BOOK_ALIASES m = _
    rw [refMention_in]
    simp only [hbad2]
    rfl
  refine ⟨hval, ?_⟩
  have hp1 : refMention m ∈ pass1_mentions text :=
    List.mem_map_of_mem (refMention_in BOOK_ALIASES) hm
  cases kco with
  | false => exact hp1
  | true => exact List.mem_append_left _ hp1

/-- C1 witness: the policy applied to the single match of "rom 193:1". -/
theorem C1_witness :
    refMention ⟨"rom".toList, "193".toList, "1".toList, none, "rom 193:1".toList, 0, 9⟩ =
      ⟨"rom 193:1".toList, none, none, none, none, "unparsed", (0, 9)⟩ ∧
    refMention ⟨"rom".toList, "193".toList, "1".toList, none, "rom 193:1".toList, 0, 9⟩ ∈
      extract_mentions ("rom 193:1".toList) true :=
  C1_unparsed_policy ("rom 193:1".toList) true
    ⟨"rom".toList, "193".toList, "1".toList, none, "rom 193:1".toList, 0, 9⟩
    (by rw [refFinditer_lit]; decide) (by rw [refOk_lit]; decide)

/-- C2: counterexample — alias-table construction does not fail fast on a
conflict: registering the alias "x" under two different codes completes
without any error and silently keeps the later code. -/
theorem C2_counterexample :
    buildAliases [("x", "Gen"), ("x", "Exod")] = [("x".toList, "Exod")] := by
  decide

/-- C2 (amended): construction performs no conflict check (a conflicting
registration silently takes the last code), but every completed
construction — the shipped `BOOK_ALIASES` included — has pairwise distinct
alias keys, so each alias maps to exactly one code. -/
theorem C2_alias_uniqueness :
    (∀ regs : List (String × String), ((buildAliases regs).map (fun p => p.1)).Nodup) ∧
    ((BOOK_ALIASES).map (fun p => p.1)).Nodup ∧
    buildAliases [("y", "Gen"), ("y", "Exod")] = [("y".toList, "Exod")] :=
  ⟨buildAliases_keys_nodup, buildAliases_keys_nodup registrations, by decide⟩

/-- C3: a pass-2 candidate is emitted as a chapter_only mention exactly when
its raw text has no colon, its span overlaps (half-open intersection) no
span claimed by a pass-1 ok match, and its book and chapter pass the
bounds check — so overlapping candidates are suppressed and
non-overlapping in-range candidates elsewhere in the text are kept. -/
theorem C3_overlap_suppression (text : Str) (m : ChapM) (hm : m ∈ chapFinditer text) :
    chapMention m ∈ extract_mentions text true ↔
      ((m.raw.contains ':' || m.raw.contains '：') = false ∧
       overlaps_any (m.start, m.stop) (okSpans text) = false ∧
       chap_in_range (normalize_book m.bookCap) (some (digitsToNat m.chapCap)) = true) := by
  have hext : extract_mentions text true =
      pass1_mentions_in BOOK_ALIASES _BOOK_TOKENS text ++
        pass2_mentions_in BOOK_ALIASES _BOOK_TOKENS text := rfl
  rw [hext, List.mem_append]
  constructor
  · intro h
    cases h with
    | inl hp1 =>
      exact absurd (chapMention_in_status BOOK_ALIASES m)
        (pass1_in_not_chapter_only BOOK_ALIASES _BOOK_TOKENS text _ hp1)
    | inr hp2 =>
      obtain ⟨a, ha, hfa⟩ := List.mem_filterMap.mp hp2
      rw [pass2Filter_in_eq_some] at hfa
      obtain ⟨h1, h2, h3, heq⟩ := hfa
      have hcomp := heq
      simp only [chapMention, chapMention_in, Mention.mk.injEq, Option.some.injEq,
        Prod.mk.injEq, and_true, true_and] at hcomp
      obtain ⟨hraw, hbook, hchap, hstart, hstop⟩ := hcomp
      rw [← hraw] at h1
      rw [← hstart, ← hstop] at h2
      rw [← hbook, ← hchap] at h3
      exact ⟨h1, h2, h3⟩
  · intro h
    exact Or.inr (List.mem_filterMap.mpr ⟨m, hm,
      pass2Filter_in_eq_some.mpr ⟨h.1, h.2.1, h.2.2, rfl⟩⟩)

/-- C3 witness: in "John 3:16 is key. John 3 overall is foundational." the
second "John 3" is kept as chapter_only while the first, which overlaps
the claimed span of "John 3:16", is suppressed. -/
theorem C3_witness :
    chapMention ⟨"John".toList, "3".toList, "John 3".toList, 18, 24⟩ ∈
      extract_mentions ("John 3:16 is key. John 3 overall is foundational.".toList) true ∧
    chapMention ⟨"John".toList, "3".toList, "John 3".toList, 0, 6⟩ ∉
      extract_mentions ("John 3:16 is key. John 3 overall is foundational.".toList) true :=
  ⟨(C3_overlap_suppression _ _ (by rw [chapFinditer_lit]; decide)).mpr
      (by rw [okSpans_lit, normalize_book_lit]; decide),
   fun h => absurd ((C3_overlap_suppression _ _ (by rw [chapFinditer_lit]; decide)).mp h)
      (by rw [okSpans_lit, normalize_book_lit]; decide)⟩

/-- C4: counterexample — "rom 3:23-2" parses to an ok mention with
verse_start = 23 and verse_end = 2, so verse_end >= verse_start fails. -/
theorem C4_counterexample :
    (extract_mentions ("rom 3:23-2".toList) true).map
        (fun m => (m.verse_start, m.verse_end, m.parse_status)) =
      [(some 23, some 2, "ok")] ∧ ¬ (23 ≤ 2) := by
  simp only [extract_mentions_lit]
  refine ⟨rfl, by decide⟩

/-- C4 (amended): when a pass-1 match carries no explicit verse range,
verse_end defaults to verse_start, so the two are equal; an explicit range
end is stored verbatim and may be smaller than verse_start. -/
theorem C4_default_range (m : RefM) (h : m.v2Cap = none) :
    (refMention m).verse_end = (refMention m).verse_start := by
  show (refMention_in BOOK_ALIASES m).verse_end = (refMention_in BOOK_ALIASES m).verse_start
  rw [refMention_in]
  simp only [h]
  split
  · rfl
  · rfl

/-- C4 witness: the single-verse reference "rom 3:23". -/
theorem C4_witness :
    (refMention ⟨"rom".toList, "3".toList, "23".toList, none, "rom 3:23".toList, 0, 8⟩).verse_end =
      (refMention ⟨"rom".toList, "3".toList, "23".toList, none, "rom 3:23".toList, 0, 8⟩).verse_start :=
  C4_default_range ⟨"rom".toList, "3".toList, "23".toList, none, "rom 3:23".toList, 0, 8⟩ rfl

/-- C5: the alternation token list is the alias table's full key set sorted by
descending length (pairwise non-increasing lengths, a permutation of the
keys), and "约翰福音3:16" resolves to John's Gospel, code John. -/
theorem C5_longest_alias_wins :
    _BOOK_TOKENS.Pairwise (fun a b => b.length ≤ a.length) ∧
    _BOOK_TOKENS.Perm (BOOK_ALIASES.map (fun p => p.1)) ∧
    (extract_mentions ("约翰福音3:16".toList) true).map Mention.book_osis = [some "John"] := by
  refine ⟨?_, sortByLenDesc_perm _, ?_⟩
  · rw [BOOK_TOKENS_eval]
    exact lenDescChainB_pairwise bookTokensLit (by decide)
  · rw [extract_mentions_lit]
    rfl

/-- C6: the bounds predicate rejects an absent book or chapter; a cataloged
code passes exactly when 1 ≤ chapter ≤ its maximum (Romans 17 fails, with
Romans capped at 16); a nonempty code missing from the catalog passes
exactly when 1 ≤ chapter ≤ 200. -/
theorem C6_chap_in_range_spec :
    (∀ c, chap_in_range none c = false) ∧
    (∀ b, chap_in_range b none = false) ∧
    (∀ b mx c, maxChaptersGet b = some mx →
      chap_in_range (some b) (some c) = (decide (1 ≤ c) && decide (c ≤ mx))) ∧
    (∀ b c, b ≠ "" → maxChaptersGet b = none →
      chap_in_range (some b) (some c) = (decide (1 ≤ c) && decide (c ≤ 200))) ∧
    maxChaptersGet "Rom" = some 16 ∧
    chap_in_range (some "Rom") (some 17) = false := by
  refine ⟨?_, ?_, ?_, ?_, by decide, by decide⟩
  · intro c; rfl
  · intro b
    cases b with
    | none => rfl
    | some bb => rfl
  · intro b mx c h
    have hb : ¬ (b = "") := by
      intro he
      have hnone : maxChaptersGet "" = none := by decide
      rw [he, hnone] at h
      exact Option.noConfusion h
    rw [chap_in_range.eq_def]
    simp only [if_neg hb, h]
  · intro b c hb h
    rw [chap_in_range.eq_def]
    simp only [if_neg hb, h]

/-- C6 witness: Romans 17 via the cataloged branch, an uncataloged code via
the permissive branch. -/
theorem C6_witness :
    chap_in_range (some "Rom") (some 17) = (decide (1 ≤ 17) && decide ((17 : Nat) ≤ 16)) ∧
    chap_in_range (some "Zzz") (some 150) = (decide (1 ≤ 150) && decide ((150 : Nat) ≤ 200)) :=
  ⟨C6_chap_in_range_spec.2.2.1 "Rom" 16 17 (by decide),
   C6_chap_in_range_spec.2.2.2.1 "Zzz" 150 (by decide) (by decide)⟩

/-- C7: hyphen, en dash, em dash and tilde all separate verse ranges — each
"rom 3:23<sep>24" form yields verse_start 23 and verse_end 24 — and with no
range present verse_end equals verse_start. -/
theorem C7_range_separators :
    (extract_mentions ("rom 3:23-24".toList) true).map
        (fun m => (m.verse_start, m.verse_end)) = [(some 23, some 24)] ∧
    (extract_mentions ("rom 3:23–24".toList) true).map
        (fun m => (m.verse_start, m.verse_end)) = [(some 23, some 24)] ∧
    (extract_mentions ("rom 3:23—24".toList) true).map
        (fun m => (m.verse_start, m.verse_end)) = [(some 23, some 24)] ∧
    (extract_mentions ("rom 3:23~24".toList) true).map
        (fun m => (m.verse_start, m.verse_end)) = [(some 23, some 24)] ∧
    (extract_mentions ("rom 3:23".toList) true).map
        (fun m => (m.verse_start, m.verse_end)) = [(some 23, some 23)] := by
  simp only [extract_mentions_lit]
  refine ⟨rfl, rfl, rfl, rfl, rfl⟩

/-- C8: every pass-2 mention is an in-range chapter_only one, a surviving
in-range candidate is emitted, and an out-of-range candidate leaves no
trace: the standalone "rom 193" produces no mention at all. -/
theorem C8_pass2_discard :
    (∀ (text : Str) (mm : Mention), mm ∈ pass2_mentions text →
      mm.parse_status = "chapter_only" ∧ chap_in_range mm.book_osis mm.chapter = true) ∧
    (∀ (text : Str) (m : ChapM), m ∈ chapFinditer text →
      (m.raw.contains ':' || m.raw.contains '：') = false →
      overlaps_any (m.start, m.stop) (okSpans text) = false →
      chap_in_range (normalize_book m.bookCap) (some (digitsToNat m.chapCap)) = true →
      chapMention m ∈ extract_mentions text true) ∧
    extract_mentions ("rom 193".toList) true = [] := by
  refine ⟨?_, ?_, by rw [extract_mentions_lit]; rfl⟩
  · intro text mm hmm
    obtain ⟨a, ha, hfa⟩ := List.mem_filterMap.mp hmm
    rw [pass2Filter_in_eq_some] at hfa
    obtain ⟨h1, h2, h3, heq⟩ := hfa
    rw [heq]
    exact ⟨rfl, h3⟩
  · intro text m hm h1 h2 h3
    have hmem : chapMention m ∈ pass2_mentions text :=
      List.mem_filterMap.mpr ⟨m, hm, pass2Filter_in_eq_some.mpr ⟨h1, h2, h3, rfl⟩⟩
    exact List.mem_append_right _ hmem

/-- C8 witness: the standalone in-range "rom 3" is emitted as chapter_only. -/
theorem C8_witness :
    chapMention ⟨"rom".toList, "3".toList, "rom 3".toList, 0, 5⟩ ∈
      extract_mentions ("rom 3".toList) true ∧
    (chapMention ⟨"rom".toList, "3".toList, "rom 3".toList, 0, 5⟩).parse_status =
      "chapter_only" :=
  ⟨C8_pass2_discard.2.1 ("rom 3".toList) ⟨"rom".toList, "3".toList, "rom 3".toList, 0, 5⟩
      (by rw [chapFinditer_lit]; decide) (by decide)
      (by rw [okSpans_lit]; decide) (by rw [normalize_book_lit]; decide),
   (C8_pass2_discard.1 ("rom 3".toList)
      (chapMention ⟨"rom".toList, "3".toList, "rom 3".toList, 0, 5⟩)
      (by rw [pass2_mentions_lit, chapMention_lit]; decide)).1⟩

/-- C9: on a pre-migration table lacking para_id, ensure_schema aborts with
"no such column: para_id" while the schema script recreates the para_id
index, before the auto-migration branch can run — although the ALTER TABLE
that branch would execute is itself non-destructive (old cells unchanged,
new column null). -/
theorem C9_migration_error :
    ensure_schema (some oldTable) = Except.error "no such column: para_id" ∧
    alterAddColumn "para_id" oldTable =
      ⟨["id", "doc_id", "p_index", "raw_match", "book_osis", "chapter",
        "verse_start", "verse_end", "parse_status", "para_id"],
       [[some 1, some 7, some 0, some 3, none, some 16, some 1, some 1, some 9, none]],
       ["idx_mentions_doc", "idx_mentions_book_ch"]⟩ :=
  ⟨rfl, rfl⟩

/-- C10: the output is the pass-1 list followed by the pass-2 list, each in
strictly ascending span-start order, pass-1 statuses are ok or unparsed,
pass-2 statuses are chapter_only, and with keep_chapter_only false the
output is exactly the pass-1 list (hence no chapter_only mention). -/
theorem C10_output_shape (text : Str) :
    extract_mentions text true = pass1_mentions text ++ pass2_mentions text ∧
    extract_mentions text false = pass1_mentions text ∧
    (pass1_mentions text).Pairwise (fun a b => a.span.1 < b.span.1) ∧
    (pass2_mentions text).Pairwise (fun a b => a.span.1 < b.span.1) ∧
    (∀ m ∈ pass1_mentions text, m.parse_status = "ok" ∨ m.parse_status = "unparsed") ∧
    (∀ m ∈ pass2_mentions text, m.parse_status = "chapter_only") := by
  refine ⟨rfl, rfl, ?_, ?_, ?_, ?_⟩
  · show (pass1_mentions_in BOOK_ALIASES _BOOK_TOKENS text).Pairwise _
    rw [pass1_mentions_in, List.pairwise_map]
    have h := refFindAux_pairwise (matchRefAt_in _BOOK_TOKENS)
      (fun s caps hc => matchRefAt_in_length hc) (text.length + 1) 0 text
    refine h.imp ?_
    intro a b hab
    rw [refMention_in_span, refMention_in_span]
    exact hab
  · show (pass2_mentions_in BOOK_ALIASES _BOOK_TOKENS text).Pairwise _
    rw [pass2_mentions_in]
    refine pairwise_filterMap_of_pairwise ?_
      (chapFindAux_pairwise (matchChapAt_in _BOOK_TOKENS)
        (fun s caps hc => matchChapAt_in_length hc) (text.length + 1) 0 text)
    intro a b x y hx hy hab
    rw [pass2Filter_in_eq_some] at hx hy
    rw [hx.2.2.2, hy.2.2.2]
    exact hab
  · intro m hm
    obtain ⟨r, _, hr⟩ := List.mem_map.mp hm
    rw [← hr]
    exact refMention_in_status BOOK_ALIASES r
  · intro m hm
    obtain ⟨a, _, hfa⟩ := List.mem_filterMap.mp hm
    rw [pass2Filter_in_eq_some] at hfa
    rw [hfa.2.2.2]
    rfl

/-- C10 witness: the example text, whose kept "John 3" is a pass-2
chapter_only mention. -/
theorem C10_witness :
    extract_mentions ("John 3:16 is key. John 3 overall is foundational.".toList) false =
      pass1_mentions ("John 3:16 is key. John 3 overall is foundational.".toList) ∧
    (chapMention ⟨"John".toList, "3".toList, "John 3".toList, 18, 24⟩).parse_status =
      "chapter_only" :=
  ⟨(C10_output_shape ("John 3:16 is key. John 3 overall is foundational.".toList)).2.1,
   (C10_output_shape ("John 3:16 is key. John 3 overall is foundational.".toList)).2.2.2.2.2
      (chapMention ⟨"John".toList, "3".toList, "John 3".toList, 18, 24⟩)
      (by rw [pass2_mentions_lit, chapMention_lit]; decide)⟩

end EVM
